import Mathlib

/-!
Verification development for the Smart After-Sales Campaign repository.

This file gives a shallow embedding, in Lean 4, of the parts of the
repository that the specification's claims are about:

* `agents/group_campaign_generator.py` — group deduplication
  (location-keyed and service-need-keyed grouping);
* `agents/vehicle_lifecycle_agent.py` — lifecycle cohort bucketing;
* `agents/email_sender_agent.py` — personalization and batched dispatch;
* `agents/group_email_sender.py` — format-based template rendering;
* `workflows/campaign_workflow.py` — routing and run-result computation;
* `agents/holiday_agent.py` — primary-holiday selection;
* `agents/targeting_agent.py` — the segmentation error boundary.

Python dictionaries with optional keys are modelled with `Option` fields
(`none` = key absent), Python lists with `List`, Python exceptions with
`Except`/explicit outcome types, and Python strings with Lean `String`.
-/

/-! ## Generic grouping (Python `defaultdict(list)` accumulation)

Both `_create_location_based_groups` and `_create_service_based_groups`
iterate over the customers and append each one to `groups[key(customer)]`
of a `defaultdict(list)`, then iterate over the dictionary items.  Python
dictionaries preserve key insertion order, and each per-key list preserves
the order in which members were appended.  `insertGrouped`/`groupByKey`
reproduce exactly that structure. -/

/-- Append `a` to the entry for key `k` of an ordered association list of
groups, creating a new entry at the end when `k` is not yet present
(the `defaultdict(list)` behaviour). -/
def insertGrouped {α : Type} (k : String) (a : α) :
    List (String × List α) → List (String × List α)
  | [] => [(k, [a])]
  | (k₂, l) :: rest =>
      if k = k₂ then (k₂, l ++ [a]) :: rest
      else (k₂, l) :: insertGrouped k a rest

/-- Grouping accumulator: fold `insertGrouped` over the input, starting
from an arbitrary partial grouping. -/
def groupAccum {α : Type} (key : α → String) (xs : List α)
    (acc : List (String × List α)) : List (String × List α) :=
  xs.foldl (fun acc a => insertGrouped (key a) a acc) acc

/-- Group a list by a string key, as the Python `defaultdict(list)` loop
does: one entry per distinct key, in first-seen order. -/
def groupByKey {α : Type} (key : α → String) (xs : List α) :
    List (String × List α) :=
  groupAccum key xs []

/-- The keys of an ordered grouping are pairwise distinct. -/
def KeysDistinct {α : Type} (gs : List (String × List α)) : Prop :=
  List.Pairwise (fun p q => p.1 ≠ q.1) gs

/-- Every member of every group has that group's key. -/
def KeyConsistent {α : Type} (key : α → String)
    (gs : List (String × List α)) : Prop :=
  ∀ p ∈ gs, ∀ x ∈ p.2, key x = p.1

theorem fst_mem_insertGrouped {α : Type} {k : String} {a : α}
    {acc : List (String × List α)} {p : String × List α}
    (hp : p ∈ insertGrouped k a acc) :
    p.1 = k ∨ ∃ q ∈ acc, p.1 = q.1 := by
  induction acc with
  | nil =>
      simp [insertGrouped] at hp
      subst hp; exact Or.inl rfl
  | cons q rest ih =>
      obtain ⟨kq, lq⟩ := q
      by_cases hk : k = kq
      · subst hk
        simp [insertGrouped] at hp
        rcases hp with hp | hp
        · exact Or.inl (by simp [hp])
        · exact Or.inr ⟨p, by simp [hp], rfl⟩
      · simp [insertGrouped, hk] at hp
        rcases hp with hp | hp
        · subst hp; exact Or.inr ⟨(kq, lq), by simp, rfl⟩
        · rcases ih hp with h | ⟨q₂, hq₂, hfst⟩
          · exact Or.inl h
          · exact Or.inr ⟨q₂, by simp [hq₂], hfst⟩

theorem keysDistinct_insertGrouped {α : Type} (k : String) (a : α)
    {acc : List (String × List α)} (h : KeysDistinct acc) :
    KeysDistinct (insertGrouped k a acc) := by
  induction acc with
  | nil => simp [insertGrouped, KeysDistinct]
  | cons q rest ih =>
      obtain ⟨kq, lq⟩ := q
      rw [KeysDistinct, List.pairwise_cons] at h
      by_cases hk : k = kq
      · subst hk
        rw [KeysDistinct, insertGrouped, if_pos rfl, List.pairwise_cons]
        exact ⟨fun q hq => h.1 q hq, h.2⟩
      · rw [KeysDistinct, insertGrouped, if_neg hk, List.pairwise_cons]
        constructor
        · intro p hp
          rcases fst_mem_insertGrouped hp with h₂ | ⟨q₂, hq₂, hfst⟩
          · intro hbad; exact hk (hbad.trans h₂).symm
          · intro hbad; exact h.1 q₂ hq₂ (hbad.trans hfst)
        · exact ih h.2

theorem keyConsistent_insertGrouped {α : Type} (key : α → String)
    {k : String} {a : α} (hka : key a = k)
    {acc : List (String × List α)} (h : KeyConsistent key acc) :
    KeyConsistent key (insertGrouped k a acc) := by
  induction acc with
  | nil =>
      intro p hp x hx
      simp [insertGrouped] at hp
      subst hp
      simp at hx
      subst hx; simpa using hka
  | cons q rest ih =>
      obtain ⟨kq, lq⟩ := q
      intro p hp x hx
      by_cases hk : k = kq
      · subst hk
        simp [insertGrouped] at hp
        rcases hp with hp | hp
        · subst hp
          simp at hx
          rcases hx with hx | hx
          · exact h (k, lq) (by simp) x hx
          · subst hx; simpa using hka
        · exact h p (by simp [hp]) x hx
      · simp [insertGrouped, hk] at hp
        rcases hp with hp | hp
        · subst hp
          exact h (kq, lq) (by simp) x hx
        · exact ih (fun p hp x hx => h p (by simp [hp]) x hx) p hp x hx

theorem flatten_insertGrouped {α : Type} (k : String) (a : α)
    (acc : List (String × List α)) :
    List.Perm ((insertGrouped k a acc).map Prod.snd).flatten
      (a :: (acc.map Prod.snd).flatten) := by
  induction acc with
  | nil => simp [insertGrouped]
  | cons p rest ih =>
      obtain ⟨kp, lp⟩ := p
      by_cases hk : k = kp
      · subst hk
        simp only [insertGrouped, if_pos rfl, List.map_cons, List.flatten_cons]
        have h1 : List.Perm ((lp ++ [a]) ++ (rest.map Prod.snd).flatten)
            ((a :: lp) ++ (rest.map Prod.snd).flatten) :=
          List.Perm.append_right _ (List.perm_append_singleton a lp)
        simpa using h1
      · simp only [insertGrouped, if_neg hk, List.map_cons, List.flatten_cons]
        exact (List.Perm.append_left lp ih).trans List.perm_middle

theorem keysDistinct_groupAccum {α : Type} (key : α → String)
    (xs : List α) {acc : List (String × List α)} (h : KeysDistinct acc) :
    KeysDistinct (groupAccum key xs acc) := by
  induction xs generalizing acc with
  | nil => simpa [groupAccum] using h
  | cons x xs ih =>
      rw [groupAccum, List.foldl_cons]
      exact ih (keysDistinct_insertGrouped (key x) x h)

theorem keyConsistent_groupAccum {α : Type} (key : α → String)
    (xs : List α) {acc : List (String × List α)}
    (h : KeyConsistent key acc) :
    KeyConsistent key (groupAccum key xs acc) := by
  induction xs generalizing acc with
  | nil => simpa [groupAccum] using h
  | cons x xs ih =>
      rw [groupAccum, List.foldl_cons]
      exact ih (keyConsistent_insertGrouped key rfl h)

theorem flatten_groupAccum {α : Type} (key : α → String)
    (xs : List α) (acc : List (String × List α)) :
    List.Perm ((groupAccum key xs acc).map Prod.snd).flatten
      (xs.reverse ++ (acc.map Prod.snd).flatten) := by
  induction xs generalizing acc with
  | nil => simp [groupAccum]
  | cons x xs ih =>
      rw [groupAccum, List.foldl_cons]
      have h1 := ih (insertGrouped (key x) x acc)
      have h2 : List.Perm
          (xs.reverse ++ ((insertGrouped (key x) x acc).map Prod.snd).flatten)
          (xs.reverse ++ (x :: (acc.map Prod.snd).flatten)) :=
        List.Perm.append_left _ (flatten_insertGrouped (key x) x acc)
      have h3 : xs.reverse ++ (x :: (acc.map Prod.snd).flatten) =
          (x :: xs).reverse ++ (acc.map Prod.snd).flatten := by
        simp
      rw [groupAccum] at h1
      exact h3 ▸ (h1.trans h2)

theorem keysDistinct_groupByKey {α : Type} (key : α → String)
    (xs : List α) : KeysDistinct (groupByKey key xs) :=
  keysDistinct_groupAccum key xs (by simp [KeysDistinct])

theorem keyConsistent_groupByKey {α : Type} (key : α → String)
    (xs : List α) : KeyConsistent key (groupByKey key xs) :=
  keyConsistent_groupAccum key xs (by intro p hp; simp at hp)

theorem flatten_groupByKey {α : Type} (key : α → String) (xs : List α) :
    List.Perm ((groupByKey key xs).map Prod.snd).flatten xs := by
  have h := flatten_groupAccum key xs []
  simpa using h.trans (by simpa using List.reverse_perm xs)

theorem keysDistinct_eq_of_mem {α : Type} {gs : List (String × List α)}
    (h : KeysDistinct gs) {p q : String × List α}
    (hp : p ∈ gs) (hq : q ∈ gs) (hfst : p.1 = q.1) : p = q := by
  induction gs with
  | nil => cases hp
  | cons g rest ih =>
      rw [KeysDistinct, List.pairwise_cons] at h
      rcases List.mem_cons.mp hp with hp₂ | hp₂
      · rcases List.mem_cons.mp hq with hq₂ | hq₂
        · exact hp₂.trans hq₂.symm
        · exact absurd (hp₂ ▸ hfst) (h.1 q hq₂)
      · rcases List.mem_cons.mp hq with hq₂ | hq₂
        · exact absurd (hq₂ ▸ hfst.symm) (h.1 p hp₂)
        · exact ih h.2 hp₂ hq₂

theorem pairwise_disjoint_groupByKey {α : Type} (key : α → String)
    (xs : List α) :
    List.Pairwise (fun p q : String × List α => ∀ c, c ∈ p.2 → c ∉ q.2)
      (groupByKey key xs) := by
  have hd := keysDistinct_groupByKey key xs
  have hc := keyConsistent_groupByKey key xs
  rw [KeysDistinct] at hd
  refine List.Pairwise.imp_of_mem ?_ hd
  intro p q hp hq hne c hcp hcq
  exact hne ((hc p hp c hcp).symm.trans (hc q hq c hcq))

theorem exists_unique_group {α : Type} (key : α → String) (xs : List α)
    {c : α} (hc : c ∈ xs) :
    ∃! p : String × List α, p ∈ groupByKey key xs ∧ c ∈ p.2 := by
  have hperm := flatten_groupByKey key xs
  have hmem : c ∈ ((groupByKey key xs).map Prod.snd).flatten :=
    hperm.symm.subset hc
  rw [List.mem_flatten] at hmem
  obtain ⟨l, hl, hcl⟩ := hmem
  rw [List.mem_map] at hl
  obtain ⟨p, hp, hpl⟩ := hl
  refine ⟨p, ⟨hp, hpl ▸ hcl⟩, ?_⟩
  rintro q ⟨hq, hcq⟩
  have hc1 := keyConsistent_groupByKey key xs q hq c hcq
  have hc2 := keyConsistent_groupByKey key xs p hp c (hpl ▸ hcl)
  exact keysDistinct_eq_of_mem (keysDistinct_groupByKey key xs) hq hp
    (hc1.symm.trans hc2)

/-! ## `agents/group_campaign_generator.py` — GroupBasedCampaignGenerator

Customers reaching the generator are Python dictionaries; the fields the
generator reads are `preferred_location` and the nested `vehicle` dict with
its service-need flags.  An absent key is modelled by `none` / `false`. -/

/-- The vehicle service-need flags read by `_determine_service_type`
(Python truthiness: an absent or falsy value is `false`). -/
structure GVehicle where
  warranty_expiring : Bool
  service_overdue : Bool
  high_mileage : Bool
deriving DecidableEq, Repr

/-- A targeted customer as seen by the group generator. -/
structure GCustomer where
  name : Option String
  email : Option String
  preferred_location : Option String
  vehicle : Option GVehicle
deriving DecidableEq, Repr

/-- The campaign template dictionary produced by the per-group template
builders. -/
structure GroupTemplate where
  title : String
  subject_line : String
  content_template : String
  cta_text : String
  personalization_fields : List String
  target_count : Nat
deriving DecidableEq, Repr

/-- One entry of the `grouped_campaigns` list.  Location-based groups carry
a `location` key, service-based groups a `service_type` key; the absent
dictionary key of the other kind is `none`. -/
structure CampaignGroup where
  group_type : String
  location : Option String
  service_type : Option String
  campaign_template : GroupTemplate
  customers : List GCustomer
  customer_count : Nat
deriving DecidableEq, Repr

/-- `_generate_holiday_group_template`: one holiday template for a
location group.  The body copy is the source's literal f-string with the
holiday name and location interpolated; `{customer_name}`-style markers
are the personalization placeholders left for the group email sender. -/
def generateHolidayGroupTemplate (location : String) (customerCount : Nat)
    (holidayName : Option String) : GroupTemplate :=
  let holiday_name := holidayName.getD "Festival"
  { title := holiday_name ++ " Campaign - " ++ location
    subject_line := "🎉 Special " ++ holiday_name ++ " Offers for " ++ location ++ " Customers!"
    content_template := "\nDear {customer_name},\n\nWishing you and your family a very Happy " ++ holiday_name ++ "!\n\nAs you prepare for the festivities and plan your travels around " ++ location ++ ", \nensure your {vehicle_make} {vehicle_model} is ready for safe journeys.\n\n🎁 Special " ++ holiday_name ++ " Offers:\n- Free vehicle inspection\n- 20% off on service packages\n- Complimentary car wash\n\nBook your service appointment today!\n\nBest regards,\nYour Service Team\n            "
    cta_text := "Book " ++ holiday_name ++ " Service"
    personalization_fields := ["customer_name", "vehicle_make", "vehicle_model"]
    target_count := customerCount }

/-- `_generate_weather_group_template`: one weather template for a
location group. -/
def generateWeatherGroupTemplate (location : String) (customerCount : Nat)
    (weatherCondition : Option String) : GroupTemplate :=
  let weather_condition := weatherCondition.getD "changing weather"
  { title := "Weather Advisory Campaign - " ++ location
    subject_line := "🌦️ Weather Alert: Prepare Your Vehicle in " ++ location
    content_template := "\nDear {customer_name},\n\nWeather update for " ++ location ++ ": " ++ weather_condition ++ "\n\nYour {vehicle_make} {vehicle_model} needs attention for the current weather conditions.\n\n💧 Weather-Ready Services:\n- AC system check\n- Tire pressure adjustment  \n- Battery inspection\n- Brake system review\n\nStay safe on the roads!\n\nBest regards,\nYour Service Team\n            "
    cta_text := "Book Weather Service"
    personalization_fields := ["customer_name", "vehicle_make", "vehicle_model"]
    target_count := customerCount }

/-- The static `service_templates` lookup of
`_generate_service_group_template` (title, subject line, content). -/
def serviceTemplateFor (serviceType : String) : String × String × String :=
  if serviceType = "warranty_expiring" then
    ("Warranty Expiring Campaign",
     "⚠️ Your Vehicle Warranty is Expiring Soon!",
     "\nDear {customer_name},\n\nYour {vehicle_make} {vehicle_model}'s warranty is about to expire.\n\nDon't miss out on covered services! Schedule your appointment before:\n📅 Warranty Expiry: {warranty_end_date}\n\n✅ Still Covered:\n- Engine diagnostics\n- Transmission check\n- Electrical system\n- Safety inspections\n\nBook now to save money!\n                ")
  else
    ("Service Overdue Campaign",
     "🔧 Your Vehicle Service is Overdue",
     "\nDear {customer_name},\n\nYour {vehicle_make} {vehicle_model} is due for service.\n\nLast Service: {last_service_date}\nRecommended: Every {service_interval} months\n\n⚠️ Overdue services can lead to:\n- Decreased performance\n- Higher fuel consumption  \n- Potential breakdowns\n\nSchedule your service today!\n                ")

/-- `_generate_service_group_template`: one service template for a
service-need group; unknown service types fall back to the
`service_overdue` template. -/
def generateServiceGroupTemplate (serviceType : String)
    (customerCount : Nat) : GroupTemplate :=
  let t := serviceTemplateFor serviceType
  { title := t.1
    subject_line := t.2.1
    content_template := t.2.2
    cta_text := "Book Service Now"
    personalization_fields := ["customer_name", "vehicle_make", "vehicle_model", "warranty_end_date", "last_service_date", "service_interval"]
    target_count := customerCount }

/-- The grouping key of `_create_location_based_groups`:
`customer.get('preferred_location', 'Mumbai')`. -/
def locationKey (c : GCustomer) : String :=
  c.preferred_location.getD "Mumbai"

/-- `_determine_service_type`: derive the single primary service-need key
of a customer, in the priority order
`warranty_expiring > service_overdue > high_mileage > general_service`. -/
def determineServiceType (c : GCustomer) : String :=
  if (c.vehicle.map GVehicle.warranty_expiring).getD false then "warranty_expiring"
  else if (c.vehicle.map GVehicle.service_overdue).getD false then "service_overdue"
  else if (c.vehicle.map GVehicle.high_mileage).getD false then "high_mileage"
  else "general_service"

/-- `_create_location_based_groups`: partition customers by
`locationKey` and build one group (with one template) per location. -/
def createLocationBasedGroups (campaignTrigger : String)
    (holidayName weatherCondition : Option String)
    (customers : List GCustomer) : List CampaignGroup :=
  (groupByKey locationKey customers).map (fun p =>
    { group_type := campaignTrigger ++ "_" ++ p.1
      location := some p.1
      service_type := none
      campaign_template :=
        if campaignTrigger = "holiday" then
          generateHolidayGroupTemplate p.1 p.2.length holidayName
        else
          generateWeatherGroupTemplate p.1 p.2.length weatherCondition
      customers := p.2
      customer_count := p.2.length })

/-- `_create_service_based_groups`: partition customers by
`determineServiceType` and build one group per service-need key. -/
def createServiceBasedGroups (customers : List GCustomer) :
    List CampaignGroup :=
  (groupByKey determineServiceType customers).map (fun p =>
    { group_type := "service_" ++ p.1
      location := none
      service_type := some p.1
      campaign_template := generateServiceGroupTemplate p.1 p.2.length
      customers := p.2
      customer_count := p.2.length })

/-- `GroupBasedCampaignGenerator.process`, restricted to the
`grouped_campaigns` value it stores in the state: with no targeted
customers the state is returned unchanged (the initial `grouped_campaigns`
is the empty list), `holiday`/`weather` triggers group by location,
`lifecycle` groups by service need, and any other trigger leaves the
freshly initialised empty group list in place. -/
def processGroups (campaignTrigger : String)
    (holidayName weatherCondition : Option String)
    (targetedCustomers : List GCustomer) : List CampaignGroup :=
  if targetedCustomers = [] then []
  else if campaignTrigger = "holiday" then
    createLocationBasedGroups campaignTrigger holidayName weatherCondition targetedCustomers
  else if campaignTrigger = "weather" then
    createLocationBasedGroups campaignTrigger holidayName weatherCondition targetedCustomers
  else if campaignTrigger = "lifecycle" then
    createServiceBasedGroups targetedCustomers
  else []

/-- Partition facts transported from `groupByKey` to the mapped list of
`CampaignGroup` records (whose `customers` field is the group member
list). -/
theorem mapped_groups_partition (key : GCustomer → String)
    (targeted : List GCustomer) (f : String × List GCustomer → CampaignGroup)
    (hf : ∀ p, (f p).customers = p.2) :
    (∀ c ∈ targeted, ∃! g : CampaignGroup,
        g ∈ (groupByKey key targeted).map f ∧ c ∈ g.customers) ∧
    List.Pairwise (fun g g₂ : CampaignGroup =>
        ∀ c, c ∈ g.customers → c ∉ g₂.customers)
      ((groupByKey key targeted).map f) ∧
    List.Perm (((groupByKey key targeted).map f).map
      CampaignGroup.customers).flatten targeted := by
  refine ⟨?_, ?_, ?_⟩
  · intro c hc
    obtain ⟨p, ⟨hp, hcp⟩, huniq⟩ := exists_unique_group key targeted hc
    refine ⟨f p, ⟨List.mem_map_of_mem f hp, by rw [hf]; exact hcp⟩, ?_⟩
    rintro g ⟨hg, hcg⟩
    obtain ⟨q, hq, hgq⟩ := List.mem_map.mp hg
    have hcq : c ∈ q.2 := by rw [← hf q, hgq]; exact hcg
    have := huniq q ⟨hq, hcq⟩
    rw [← hgq, this]
  · rw [List.pairwise_map]
    refine List.Pairwise.imp_of_mem ?_ (pairwise_disjoint_groupByKey key targeted)
    intro p q hp hq hpq c hcp hcq
    exact hpq c (by rw [← hf p]; exact hcp) (by rw [← hf q]; exact hcq)
  · rw [List.map_map]
    have : (CampaignGroup.customers ∘ f) = Prod.snd := funext hf
    rw [this]
    exact flatten_groupByKey key targeted

/-- A sample targeted customer with no `preferred_location` key. -/
def sampleCustomerA : GCustomer :=
  { name := some "Asha", email := some "asha@example.com",
    preferred_location := none, vehicle := none }

/-- A sample targeted customer whose preferred location is Mumbai. -/
def sampleCustomerB : GCustomer :=
  { name := some "Bela", email := some "bela@example.com",
    preferred_location := some "Mumbai", vehicle := none }

/-- A sample targeted customer preferring Pune, with service flags. -/
def sampleCustomerC : GCustomer :=
  { name := some "Chetan", email := some "chetan@example.com",
    preferred_location := some "Pune",
    vehicle := some { warranty_expiring := false, service_overdue := true,
                      high_mileage := true } }

/-- C1 counterexample: under the `scheduled` trigger kind the group
generator builds no groups at all, so a targeted customer is placed in no
group — the claimed partition fails for that trigger kind. -/
theorem c1_counterexample_scheduled_trigger :
    processGroups "scheduled" none none [sampleCustomerA] = [] ∧
    ¬ ∃ g : CampaignGroup,
        g ∈ processGroups "scheduled" none none [sampleCustomerA] ∧
        sampleCustomerA ∈ g.customers := by
  refine ⟨by simp [processGroups, sampleCustomerA], ?_⟩
  rintro ⟨g, hg, -⟩
  simp [processGroups, sampleCustomerA] at hg

/-- C1 (amended): for the trigger kinds that the group generator handles
(`holiday`, `weather`, `lifecycle`) group deduplication partitions the
targeted customers — every targeted customer lies in exactly one group
(keyed by preferred location, default `Mumbai`, for holiday/weather, and
by the single primary service-need key for lifecycle), the groups are
pairwise disjoint, and the group member lists together are a permutation
of the targeted list.  (Under the fourth trigger kind, `scheduled`, no
groups are produced, see the counterexample.) -/
theorem c1_groupDeduplication_partitions (trigger : String)
    (htrig : trigger = "holiday" ∨ trigger = "weather" ∨ trigger = "lifecycle")
    (holidayName weatherCondition : Option String)
    (targeted : List GCustomer) :
    (∀ c ∈ targeted, ∃! g : CampaignGroup,
        g ∈ processGroups trigger holidayName weatherCondition targeted ∧
        c ∈ g.customers) ∧
    List.Pairwise (fun g g₂ : CampaignGroup =>
        ∀ c, c ∈ g.customers → c ∉ g₂.customers)
      (processGroups trigger holidayName weatherCondition targeted) ∧
    List.Perm ((processGroups trigger holidayName weatherCondition
      targeted).map CampaignGroup.customers).flatten targeted := by
  by_cases hemp : targeted = []
  · subst hemp
    simp [processGroups]
  · rcases htrig with h | h | h <;> subst h
    · have hunfold : processGroups "holiday" holidayName weatherCondition targeted =
          createLocationBasedGroups "holiday" holidayName weatherCondition targeted := by
        simp [processGroups, hemp]
      rw [hunfold, createLocationBasedGroups]
      exact mapped_groups_partition locationKey targeted _ (fun p => rfl)
    · have hunfold : processGroups "weather" holidayName weatherCondition targeted =
          createLocationBasedGroups "weather" holidayName weatherCondition targeted := by
        simp [processGroups, hemp]
      rw [hunfold, createLocationBasedGroups]
      exact mapped_groups_partition locationKey targeted _ (fun p => rfl)
    · have hunfold : processGroups "lifecycle" holidayName weatherCondition targeted =
          createServiceBasedGroups targeted := by
        simp [processGroups, hemp]
      rw [hunfold, createServiceBasedGroups]
      exact mapped_groups_partition determineServiceType targeted _ (fun p => rfl)

/-- C1 witness: the amended partition theorem applied at a concrete
weather run with two customers, yielding the unique group containing the
first of them. -/
theorem c1_groupDeduplication_partitions_witness :
    ∃! g : CampaignGroup,
      g ∈ processGroups "weather" none none [sampleCustomerB, sampleCustomerC] ∧
      sampleCustomerB ∈ g.customers :=
  (c1_groupDeduplication_partitions "weather" (Or.inr (Or.inl rfl)) none none
    [sampleCustomerB, sampleCustomerC]).1 sampleCustomerB (by simp)

/-- C10: in location-keyed grouping, a targeted customer with no
`preferred_location` key is neither dropped nor isolated: it receives the
default location key `Mumbai`, lands in the group whose location key is
`Mumbai` together with every customer whose preferred location actually is
`Mumbai`, and lies in no other group. -/
theorem c10_missing_location_merged_into_mumbai (campaignTrigger : String)
    (holidayName weatherCondition : Option String)
    (customers : List GCustomer) (c : GCustomer)
    (hc : c ∈ customers) (hloc : c.preferred_location = none) :
    ∃ g : CampaignGroup,
      g ∈ createLocationBasedGroups campaignTrigger holidayName
            weatherCondition customers ∧
      g.location = some "Mumbai" ∧ c ∈ g.customers ∧
      (∀ c₂ ∈ customers, c₂.preferred_location = some "Mumbai" →
        c₂ ∈ g.customers) ∧
      (∀ g₂, g₂ ∈ createLocationBasedGroups campaignTrigger holidayName
          weatherCondition customers → c ∈ g₂.customers → g₂ = g) := by
  obtain ⟨p, ⟨hp, hcp⟩, huniq⟩ := exists_unique_group locationKey customers hc
  have hkey : locationKey c = "Mumbai" := by simp [locationKey, hloc]
  have hp1 : p.1 = "Mumbai" := by
    rw [← hkey]
    exact (keyConsistent_groupByKey locationKey customers p hp c hcp).symm
  refine ⟨_, List.mem_map_of_mem _ hp, by simpa using hp1, hcp, ?_, ?_⟩
  · intro c₂ hc₂ hloc₂
    obtain ⟨q, ⟨hq, hcq⟩, -⟩ := exists_unique_group locationKey customers hc₂
    have hq1 : q.1 = "Mumbai" := by
      have := keyConsistent_groupByKey locationKey customers q hq c₂ hcq
      rw [← this]
      simp [locationKey, hloc₂]
    have : q = p := keysDistinct_eq_of_mem
      (keysDistinct_groupByKey locationKey customers) hq hp (hq1.trans hp1.symm)
    exact this ▸ hcq
  · intro g₂ hg₂ hcg₂
    obtain ⟨q, hq, hgq⟩ := List.mem_map.mp hg₂
    have hcq : c ∈ q.2 := by
      have : g₂.customers = q.2 := by rw [← hgq]
      rw [← this]; exact hcg₂
    have : q = p := huniq q ⟨hq, hcq⟩
    rw [← hgq, this]

/-- C10 witness: the theorem applied to a concrete holiday run in which
`sampleCustomerA` has no preferred location and `sampleCustomerB` prefers
Mumbai. -/
theorem c10_missing_location_merged_into_mumbai_witness :
    ∃ g : CampaignGroup,
      g ∈ createLocationBasedGroups "holiday" (some "Diwali") none
            [sampleCustomerA, sampleCustomerB] ∧
      g.location = some "Mumbai" ∧ sampleCustomerA ∈ g.customers ∧
      (∀ c₂ ∈ [sampleCustomerA, sampleCustomerB],
        c₂.preferred_location = some "Mumbai" → c₂ ∈ g.customers) ∧
      (∀ g₂, g₂ ∈ createLocationBasedGroups "holiday" (some "Diwali") none
          [sampleCustomerA, sampleCustomerB] →
          sampleCustomerA ∈ g₂.customers → g₂ = g) :=
  c10_missing_location_merged_into_mumbai "holiday" (some "Diwali") none
    [sampleCustomerA, sampleCustomerB] sampleCustomerA (by simp)
    (by simp [sampleCustomerA])

/-! ## Dates

The agents handle dates as `YYYY-MM-DD` strings (optionally followed by a
time part, which `str(...)[:10]` truncates away) and compare them through
`datetime` subtraction.  Dates are parsed to `(year, month, day)` triples
and day arithmetic goes through a day-number (rata die) conversion;
`datetime.now()` is modelled by the day number of the current date at
midnight. -/

/-- Decimal digit value of a character, if it is a digit. -/
def digitVal (c : Char) : Option Nat :=
  if c.isDigit then some (c.toNat - 48) else none

/-- `_parse_date` of the lifecycle agent (and `datetime.fromisoformat` of
the email sender, whose inputs are the same ISO date strings): parse the
first ten characters as `YYYY-MM-DD`, or the whole string as
`DD/MM/YYYY`; anything else fails. -/
def parseDate (s : String) : Option (Nat × Nat × Nat) :=
  match s.data.take 10 with
  | [y1, y2, y3, y4, '-', m1, m2, '-', d1, d2] => do
      let a ← digitVal y1
      let b ← digitVal y2
      let c ← digitVal y3
      let d ← digitVal y4
      let e ← digitVal m1
      let f ← digitVal m2
      let g ← digitVal d1
      let h ← digitVal d2
      pure (a * 1000 + b * 100 + c * 10 + d, e * 10 + f, g * 10 + h)
  | [d1, d2, '/', m1, m2, '/', y1, y2, y3, y4] => do
      let a ← digitVal y1
      let b ← digitVal y2
      let c ← digitVal y3
      let d ← digitVal y4
      let e ← digitVal m1
      let f ← digitVal m2
      let g ← digitVal d1
      let h ← digitVal d2
      pure (a * 1000 + b * 100 + c * 10 + d, e * 10 + f, g * 10 + h)
  | _ => none

/-- Day number of a calendar date (days-from-civil algorithm, valid for
the positive years the data contains). -/
def toDays (ymd : Nat × Nat × Nat) : Nat :=
  let y := if ymd.2.1 ≤ 2 then ymd.1 - 1 else ymd.1
  let era := y / 400
  let yoe := y % 400
  let mp := (ymd.2.1 + 9) % 12
  let doy := (153 * mp + 2) / 5 + ymd.2.2 - 1
  let doe := yoe * 365 + yoe / 4 - yoe / 100 + doy
  era * 146097 + doe

/-! ## `agents/vehicle_lifecycle_agent.py` — VehicleLifecycleAgent

`_analyze_vehicle_lifecycle` walks over the targeted customers, computes
per-vehicle lifecycle quantities, and appends a `customer_data` entry to
each ownership/mileage/warranty/service segment whose condition holds.
`today` is the day number of `datetime.now()`. -/

/-- The vehicle dictionary fields read by the lifecycle agent. -/
structure LVehicle where
  purchase_date : Option String
  mileage : Option Nat
  last_service_date : Option String
  warranty_end : Option String
deriving DecidableEq, Repr

/-- A targeted customer as seen by the lifecycle agent
(`customer.get('vehicle', {})`; a missing or empty vehicle dict makes the
loop skip the customer). -/
structure LCustomer where
  name : Option String
  email : Option String
  vehicle : Option LVehicle
deriving DecidableEq, Repr

/-- `vehicle_age_years`: fractional years since the parsed purchase date,
`(now - purchase_date).days / 365.25`, and `0` when the date is missing
or unparsable. -/
def vehicleAgeYears (today : Nat) (v : LVehicle) : ℚ :=
  match v.purchase_date.bind parseDate with
  | some pd => (((today : Int) - (toDays pd : Int) : Int) : ℚ) / (365.25 : ℚ)
  | none => 0

/-- `days_since_service`: `(now - last_service).days`, with the sentinel
`365` when the last-service date is missing or unparsable. -/
def daysSinceService (today : Nat) (v : LVehicle) : Int :=
  match v.last_service_date.bind parseDate with
  | some d => (today : Int) - (toDays d : Int)
  | none => 365

/-- The `warranty_end and _days_until_date(warranty_end) <= 180` test
guarding the `warranty_expiring` segment. -/
def warrantyExpiringSoon (today : Nat) (v : LVehicle) : Bool :=
  match v.warranty_end.bind parseDate with
  | some d => (toDays d : Int) - (today : Int) ≤ 180
  | none => false

/-- The `customer_data` dictionary appended to the segments. -/
structure LEntry where
  customer : LCustomer
  vehicle_age_years : ℚ
  mileage : Nat
  days_since_service : Int
deriving DecidableEq, Repr

/-- Build the `customer_data` entry for a customer with vehicle `v`. -/
def mkEntry (today : Nat) (c : LCustomer) (v : LVehicle) : LEntry :=
  { customer := c
    vehicle_age_years := vehicleAgeYears today v
    mileage := v.mileage.getD 0
    days_since_service := daysSinceService today v }

/-- The `ownership_segments` dictionary of `_analyze_vehicle_lifecycle`. -/
structure OwnershipSegments where
  new_owners : List LEntry
  early_owners : List LEntry
  mid_owners : List LEntry
  veteran_owners : List LEntry
  high_mileage : List LEntry
  ultra_high_mileage : List LEntry
  warranty_expiring : List LEntry
  service_due : List LEntry
deriving DecidableEq, Repr

/-- The initial, empty segments dictionary. -/
def emptySegments : OwnershipSegments :=
  { new_owners := [], early_owners := [], mid_owners := [],
    veteran_owners := [], high_mileage := [], ultra_high_mileage := [],
    warranty_expiring := [], service_due := [] }

/-- The ownership-stage `if/elif` chain
(`<=1 / <=3 / <=5 / else` on `vehicle_age_years`). -/
def addOwnership (segs : OwnershipSegments) (e : LEntry) : OwnershipSegments :=
  if e.vehicle_age_years ≤ 1 then
    { segs with new_owners := segs.new_owners ++ [e] }
  else if e.vehicle_age_years ≤ 3 then
    { segs with early_owners := segs.early_owners ++ [e] }
  else if e.vehicle_age_years ≤ 5 then
    { segs with mid_owners := segs.mid_owners ++ [e] }
  else
    { segs with veteran_owners := segs.veteran_owners ++ [e] }

/-- The mileage `if/elif` chain
(`>= 100000` ultra, `elif >= 50000` high). -/
def addMileage (segs : OwnershipSegments) (e : LEntry) : OwnershipSegments :=
  if 100000 ≤ e.mileage then
    { segs with ultra_high_mileage := segs.ultra_high_mileage ++ [e] }
  else if 50000 ≤ e.mileage then
    { segs with high_mileage := segs.high_mileage ++ [e] }
  else segs

/-- The warranty-expiration test (within 180 days). -/
def addWarranty (today : Nat) (segs : OwnershipSegments) (e : LEntry)
    (v : LVehicle) : OwnershipSegments :=
  if warrantyExpiringSoon today v then
    { segs with warranty_expiring := segs.warranty_expiring ++ [e] }
  else segs

/-- The service-due test (`days_since_service > 180`). -/
def addService (segs : OwnershipSegments) (e : LEntry) : OwnershipSegments :=
  if 180 < e.days_since_service then
    { segs with service_due := segs.service_due ++ [e] }
  else segs

/-- One iteration of the customer loop of `_analyze_vehicle_lifecycle`:
skip customers without a vehicle dict, otherwise apply the four
segmentation steps in source order. -/
def segStep (today : Nat) (segs : OwnershipSegments) (c : LCustomer) :
    OwnershipSegments :=
  match c.vehicle with
  | none => segs
  | some v =>
      addService
        (addWarranty today
          (addMileage (addOwnership segs (mkEntry today c v)) (mkEntry today c v))
          (mkEntry today c v) v)
        (mkEntry today c v)

/-- The segments accumulated by `_analyze_vehicle_lifecycle` over the
targeted customers. -/
def analyzeSegments (customers : List LCustomer) (today : Nat) :
    OwnershipSegments :=
  customers.foldl (segStep today) emptySegments

theorem addOwnership_new_owners (s : OwnershipSegments) (e : LEntry) :
    (addOwnership s e).new_owners = s.new_owners ++
      (if e.vehicle_age_years ≤ 1 then [e] else []) := by
  unfold addOwnership; split_ifs <;> simp

theorem addOwnership_early_owners (s : OwnershipSegments) (e : LEntry) :
    (addOwnership s e).early_owners = s.early_owners ++
      (if ¬ e.vehicle_age_years ≤ 1 ∧ e.vehicle_age_years ≤ 3
       then [e] else []) := by
  unfold addOwnership; split_ifs <;> simp_all

theorem addOwnership_mid_owners (s : OwnershipSegments) (e : LEntry) :
    (addOwnership s e).mid_owners = s.mid_owners ++
      (if ¬ e.vehicle_age_years ≤ 3 ∧ e.vehicle_age_years ≤ 5
       then [e] else []) := by
  unfold addOwnership; split_ifs <;> simp_all <;> linarith

theorem addOwnership_veteran_owners (s : OwnershipSegments) (e : LEntry) :
    (addOwnership s e).veteran_owners = s.veteran_owners ++
      (if ¬ e.vehicle_age_years ≤ 5 then [e] else []) := by
  unfold addOwnership; split_ifs <;> simp_all <;> linarith

theorem addOwnership_ultra (s : OwnershipSegments) (e : LEntry) :
    (addOwnership s e).ultra_high_mileage = s.ultra_high_mileage := by
  unfold addOwnership; split_ifs <;> rfl

theorem addOwnership_high (s : OwnershipSegments) (e : LEntry) :
    (addOwnership s e).high_mileage = s.high_mileage := by
  unfold addOwnership; split_ifs <;> rfl

theorem addMileage_ultra (s : OwnershipSegments) (e : LEntry) :
    (addMileage s e).ultra_high_mileage = s.ultra_high_mileage ++
      (if 100000 ≤ e.mileage then [e] else []) := by
  unfold addMileage; split_ifs <;> simp

theorem addMileage_high (s : OwnershipSegments) (e : LEntry) :
    (addMileage s e).high_mileage = s.high_mileage ++
      (if ¬ 100000 ≤ e.mileage ∧ 50000 ≤ e.mileage then [e] else []) := by
  unfold addMileage; split_ifs <;> simp_all

theorem addMileage_new_owners (s : OwnershipSegments) (e : LEntry) :
    (addMileage s e).new_owners = s.new_owners := by
  unfold addMileage; split_ifs <;> rfl

theorem addMileage_early_owners (s : OwnershipSegments) (e : LEntry) :
    (addMileage s e).early_owners = s.early_owners := by
  unfold addMileage; split_ifs <;> rfl

theorem addMileage_mid_owners (s : OwnershipSegments) (e : LEntry) :
    (addMileage s e).mid_owners = s.mid_owners := by
  unfold addMileage; split_ifs <;> rfl

theorem addMileage_veteran_owners (s : OwnershipSegments) (e : LEntry) :
    (addMileage s e).veteran_owners = s.veteran_owners := by
  unfold addMileage; split_ifs <;> rfl

theorem addWarranty_new_owners (today : Nat) (s : OwnershipSegments)
    (e : LEntry) (v : LVehicle) :
    (addWarranty today s e v).new_owners = s.new_owners := by
  unfold addWarranty; split_ifs <;> rfl

theorem addWarranty_early_owners (today : Nat) (s : OwnershipSegments)
    (e : LEntry) (v : LVehicle) :
    (addWarranty today s e v).early_owners = s.early_owners := by
  unfold addWarranty; split_ifs <;> rfl

theorem addWarranty_mid_owners (today : Nat) (s : OwnershipSegments)
    (e : LEntry) (v : LVehicle) :
    (addWarranty today s e v).mid_owners = s.mid_owners := by
  unfold addWarranty; split_ifs <;> rfl

theorem addWarranty_veteran_owners (today : Nat) (s : OwnershipSegments)
    (e : LEntry) (v : LVehicle) :
    (addWarranty today s e v).veteran_owners = s.veteran_owners := by
  unfold addWarranty; split_ifs <;> rfl

theorem addWarranty_ultra (today : Nat) (s : OwnershipSegments)
    (e : LEntry) (v : LVehicle) :
    (addWarranty today s e v).ultra_high_mileage = s.ultra_high_mileage := by
  unfold addWarranty; split_ifs <;> rfl

theorem addWarranty_high (today : Nat) (s : OwnershipSegments)
    (e : LEntry) (v : LVehicle) :
    (addWarranty today s e v).high_mileage = s.high_mileage := by
  unfold addWarranty; split_ifs <;> rfl

theorem addService_new_owners (s : OwnershipSegments) (e : LEntry) :
    (addService s e).new_owners = s.new_owners := by
  unfold addService; split_ifs <;> rfl

theorem addService_early_owners (s : OwnershipSegments) (e : LEntry) :
    (addService s e).early_owners = s.early_owners := by
  unfold addService; split_ifs <;> rfl

theorem addService_mid_owners (s : OwnershipSegments) (e : LEntry) :
    (addService s e).mid_owners = s.mid_owners := by
  unfold addService; split_ifs <;> rfl

theorem addService_veteran_owners (s : OwnershipSegments) (e : LEntry) :
    (addService s e).veteran_owners = s.veteran_owners := by
  unfold addService; split_ifs <;> rfl

theorem addService_ultra (s : OwnershipSegments) (e : LEntry) :
    (addService s e).ultra_high_mileage = s.ultra_high_mileage := by
  unfold addService; split_ifs <;> rfl

theorem addService_high (s : OwnershipSegments) (e : LEntry) :
    (addService s e).high_mileage = s.high_mileage := by
  unfold addService; split_ifs <;> rfl

theorem mem_segStep_new_owners (today : Nat) (s : OwnershipSegments)
    (c : LCustomer) (e : LEntry) :
    e ∈ (segStep today s c).new_owners ↔ e ∈ s.new_owners ∨
      ∃ v, c.vehicle = some v ∧ e = mkEntry today c v ∧
        (mkEntry today c v).vehicle_age_years ≤ 1 := by
  cases hv : c.vehicle with
  | none => simp [segStep, hv]
  | some v =>
      simp only [segStep, hv]
      rw [addService_new_owners, addWarranty_new_owners,
        addMileage_new_owners, addOwnership_new_owners]
      by_cases h : (mkEntry today c v).vehicle_age_years ≤ 1 <;>
        simp [h, eq_comm]

theorem mem_segStep_early_owners (today : Nat) (s : OwnershipSegments)
    (c : LCustomer) (e : LEntry) :
    e ∈ (segStep today s c).early_owners ↔ e ∈ s.early_owners ∨
      ∃ v, c.vehicle = some v ∧ e = mkEntry today c v ∧
        (¬ (mkEntry today c v).vehicle_age_years ≤ 1 ∧
          (mkEntry today c v).vehicle_age_years ≤ 3) := by
  cases hv : c.vehicle with
  | none => simp [segStep, hv]
  | some v =>
      simp only [segStep, hv]
      rw [addService_early_owners, addWarranty_early_owners,
        addMileage_early_owners, addOwnership_early_owners]
      by_cases h : ¬ (mkEntry today c v).vehicle_age_years ≤ 1 ∧
          (mkEntry today c v).vehicle_age_years ≤ 3 <;>
        simp [h, eq_comm] <;> aesop

theorem mem_segStep_mid_owners (today : Nat) (s : OwnershipSegments)
    (c : LCustomer) (e : LEntry) :
    e ∈ (segStep today s c).mid_owners ↔ e ∈ s.mid_owners ∨
      ∃ v, c.vehicle = some v ∧ e = mkEntry today c v ∧
        (¬ (mkEntry today c v).vehicle_age_years ≤ 3 ∧
          (mkEntry today c v).vehicle_age_years ≤ 5) := by
  cases hv : c.vehicle with
  | none => simp [segStep, hv]
  | some v =>
      simp only [segStep, hv]
      rw [addService_mid_owners, addWarranty_mid_owners,
        addMileage_mid_owners, addOwnership_mid_owners]
      by_cases h : ¬ (mkEntry today c v).vehicle_age_years ≤ 3 ∧
          (mkEntry today c v).vehicle_age_years ≤ 5 <;>
        simp [h, eq_comm] <;> aesop

theorem mem_segStep_veteran_owners (today : Nat) (s : OwnershipSegments)
    (c : LCustomer) (e : LEntry) :
    e ∈ (segStep today s c).veteran_owners ↔ e ∈ s.veteran_owners ∨
      ∃ v, c.vehicle = some v ∧ e = mkEntry today c v ∧
        ¬ (mkEntry today c v).vehicle_age_years ≤ 5 := by
  cases hv : c.vehicle with
  | none => simp [segStep, hv]
  | some v =>
      simp only [segStep, hv]
      rw [addService_veteran_owners, addWarranty_veteran_owners,
        addMileage_veteran_owners, addOwnership_veteran_owners]
      by_cases h : ¬ (mkEntry today c v).vehicle_age_years ≤ 5 <;>
        simp [h, eq_comm] <;> aesop

theorem mem_segStep_ultra (today : Nat) (s : OwnershipSegments)
    (c : LCustomer) (e : LEntry) :
    e ∈ (segStep today s c).ultra_high_mileage ↔
      e ∈ s.ultra_high_mileage ∨
      ∃ v, c.vehicle = some v ∧ e = mkEntry today c v ∧
        100000 ≤ (mkEntry today c v).mileage := by
  cases hv : c.vehicle with
  | none => simp [segStep, hv]
  | some v =>
      simp only [segStep, hv]
      rw [addService_ultra, addWarranty_ultra, addMileage_ultra,
        addOwnership_ultra]
      by_cases h : 100000 ≤ (mkEntry today c v).mileage <;>
        simp [h, eq_comm]

theorem mem_segStep_high (today : Nat) (s : OwnershipSegments)
    (c : LCustomer) (e : LEntry) :
    e ∈ (segStep today s c).high_mileage ↔ e ∈ s.high_mileage ∨
      ∃ v, c.vehicle = some v ∧ e = mkEntry today c v ∧
        (¬ 100000 ≤ (mkEntry today c v).mileage ∧
          50000 ≤ (mkEntry today c v).mileage) := by
  cases hv : c.vehicle with
  | none => simp [segStep, hv]
  | some v =>
      simp only [segStep, hv]
      rw [addService_high, addWarranty_high, addMileage_high,
        addOwnership_high]
      by_cases h : ¬ 100000 ≤ (mkEntry today c v).mileage ∧
          50000 ≤ (mkEntry today c v).mileage <;>
        simp [h, eq_comm] <;> aesop

theorem mem_analyze_new_owners (customers : List LCustomer) (today : Nat)
    (e : LEntry) :
    e ∈ (analyzeSegments customers today).new_owners ↔
      ∃ c ∈ customers, ∃ v, c.vehicle = some v ∧ e = mkEntry today c v ∧
        (mkEntry today c v).vehicle_age_years ≤ 1 := by
  suffices h : ∀ s : OwnershipSegments,
      e ∈ (customers.foldl (segStep today) s).new_owners ↔
        e ∈ s.new_owners ∨ ∃ c ∈ customers, ∃ v, c.vehicle = some v ∧
          e = mkEntry today c v ∧
          (mkEntry today c v).vehicle_age_years ≤ 1 by
    simpa [analyzeSegments, emptySegments] using h emptySegments
  induction customers with
  | nil => intro s; simp
  | cons c cs ih =>
      intro s
      rw [List.foldl_cons, ih, mem_segStep_new_owners, or_assoc]
      simp only [List.mem_cons, exists_eq_or_imp]

theorem mem_analyze_early_owners (customers : List LCustomer) (today : Nat)
    (e : LEntry) :
    e ∈ (analyzeSegments customers today).early_owners ↔
      ∃ c ∈ customers, ∃ v, c.vehicle = some v ∧ e = mkEntry today c v ∧
        (¬ (mkEntry today c v).vehicle_age_years ≤ 1 ∧
          (mkEntry today c v).vehicle_age_years ≤ 3) := by
  suffices h : ∀ s : OwnershipSegments,
      e ∈ (customers.foldl (segStep today) s).early_owners ↔
        e ∈ s.early_owners ∨ ∃ c ∈ customers, ∃ v, c.vehicle = some v ∧
          e = mkEntry today c v ∧
          (¬ (mkEntry today c v).vehicle_age_years ≤ 1 ∧
            (mkEntry today c v).vehicle_age_years ≤ 3) by
    simpa [analyzeSegments, emptySegments] using h emptySegments
  induction customers with
  | nil => intro s; simp
  | cons c cs ih =>
      intro s
      rw [List.foldl_cons, ih, mem_segStep_early_owners, or_assoc]
      simp only [List.mem_cons, exists_eq_or_imp]

theorem mem_analyze_mid_owners (customers : List LCustomer) (today : Nat)
    (e : LEntry) :
    e ∈ (analyzeSegments customers today).mid_owners ↔
      ∃ c ∈ customers, ∃ v, c.vehicle = some v ∧ e = mkEntry today c v ∧
        (¬ (mkEntry today c v).vehicle_age_years ≤ 3 ∧
          (mkEntry today c v).vehicle_age_years ≤ 5) := by
  suffices h : ∀ s : OwnershipSegments,
      e ∈ (customers.foldl (segStep today) s).mid_owners ↔
        e ∈ s.mid_owners ∨ ∃ c ∈ customers, ∃ v, c.vehicle = some v ∧
          e = mkEntry today c v ∧
          (¬ (mkEntry today c v).vehicle_age_years ≤ 3 ∧
            (mkEntry today c v).vehicle_age_years ≤ 5) by
    simpa [analyzeSegments, emptySegments] using h emptySegments
  induction customers with
  | nil => intro s; simp
  | cons c cs ih =>
      intro s
      rw [List.foldl_cons, ih, mem_segStep_mid_owners, or_assoc]
      simp only [List.mem_cons, exists_eq_or_imp]

theorem mem_analyze_veteran_owners (customers : List LCustomer)
    (today : Nat) (e : LEntry) :
    e ∈ (analyzeSegments customers today).veteran_owners ↔
      ∃ c ∈ customers, ∃ v, c.vehicle = some v ∧ e = mkEntry today c v ∧
        ¬ (mkEntry today c v).vehicle_age_years ≤ 5 := by
  suffices h : ∀ s : OwnershipSegments,
      e ∈ (customers.foldl (segStep today) s).veteran_owners ↔
        e ∈ s.veteran_owners ∨ ∃ c ∈ customers, ∃ v, c.vehicle = some v ∧
          e = mkEntry today c v ∧
          ¬ (mkEntry today c v).vehicle_age_years ≤ 5 by
    simpa [analyzeSegments, emptySegments] using h emptySegments
  induction customers with
  | nil => intro s; simp
  | cons c cs ih =>
      intro s
      rw [List.foldl_cons, ih, mem_segStep_veteran_owners, or_assoc]
      simp only [List.mem_cons, exists_eq_or_imp]

theorem mem_analyze_ultra (customers : List LCustomer) (today : Nat)
    (e : LEntry) :
    e ∈ (analyzeSegments customers today).ultra_high_mileage ↔
      ∃ c ∈ customers, ∃ v, c.vehicle = some v ∧ e = mkEntry today c v ∧
        100000 ≤ (mkEntry today c v).mileage := by
  suffices h : ∀ s : OwnershipSegments,
      e ∈ (customers.foldl (segStep today) s).ultra_high_mileage ↔
        e ∈ s.ultra_high_mileage ∨ ∃ c ∈ customers, ∃ v,
          c.vehicle = some v ∧ e = mkEntry today c v ∧
          100000 ≤ (mkEntry today c v).mileage by
    simpa [analyzeSegments, emptySegments] using h emptySegments
  induction customers with
  | nil => intro s; simp
  | cons c cs ih =>
      intro s
      rw [List.foldl_cons, ih, mem_segStep_ultra, or_assoc]
      simp only [List.mem_cons, exists_eq_or_imp]

theorem mem_analyze_high (customers : List LCustomer) (today : Nat)
    (e : LEntry) :
    e ∈ (analyzeSegments customers today).high_mileage ↔
      ∃ c ∈ customers, ∃ v, c.vehicle = some v ∧ e = mkEntry today c v ∧
        (¬ 100000 ≤ (mkEntry today c v).mileage ∧
          50000 ≤ (mkEntry today c v).mileage) := by
  suffices h : ∀ s : OwnershipSegments,
      e ∈ (customers.foldl (segStep today) s).high_mileage ↔
        e ∈ s.high_mileage ∨ ∃ c ∈ customers, ∃ v, c.vehicle = some v ∧
          e = mkEntry today c v ∧
          (¬ 100000 ≤ (mkEntry today c v).mileage ∧
            50000 ≤ (mkEntry today c v).mileage) by
    simpa [analyzeSegments, emptySegments] using h emptySegments
  induction customers with
  | nil => intro s; simp
  | cons c cs ih =>
      intro s
      rw [List.foldl_cons, ih, mem_segStep_high, or_assoc]
      simp only [List.mem_cons, exists_eq_or_imp]

/-- The four ownership-stage segments of the lifecycle analyzer. -/
inductive OwnershipStage where
  | new_owners
  | early_owners
  | mid_owners
  | veteran_owners
deriving DecidableEq, Repr

/-- Select the member list of an ownership-stage segment. -/
def ownershipList (segs : OwnershipSegments) : OwnershipStage → List LEntry
  | .new_owners => segs.new_owners
  | .early_owners => segs.early_owners
  | .mid_owners => segs.mid_owners
  | .veteran_owners => segs.veteran_owners

/-- The ownership stage selected by the `if/elif` chain for an entry
(a function of the computed vehicle age alone). -/
def stageOf (e : LEntry) : OwnershipStage :=
  if e.vehicle_age_years ≤ 1 then .new_owners
  else if e.vehicle_age_years ≤ 3 then .early_owners
  else if e.vehicle_age_years ≤ 5 then .mid_owners
  else .veteran_owners

theorem stageOf_eq_new (e : LEntry) :
    stageOf e = .new_owners ↔ e.vehicle_age_years ≤ 1 := by
  unfold stageOf; split_ifs <;> simp_all

theorem stageOf_eq_early (e : LEntry) :
    stageOf e = .early_owners ↔
      ¬ e.vehicle_age_years ≤ 1 ∧ e.vehicle_age_years ≤ 3 := by
  unfold stageOf; split_ifs <;> simp_all

theorem stageOf_eq_mid (e : LEntry) :
    stageOf e = .mid_owners ↔
      ¬ e.vehicle_age_years ≤ 3 ∧ e.vehicle_age_years ≤ 5 := by
  unfold stageOf; split_ifs <;> simp_all <;> try intro h4
  all_goals linarith

theorem stageOf_eq_veteran (e : LEntry) :
    stageOf e = .veteran_owners ↔ ¬ e.vehicle_age_years ≤ 5 := by
  unfold stageOf; split_ifs <;> simp_all <;> try intro h4
  all_goals linarith

/-- Membership in an ownership-stage list of the analyzed segments is
equivalent to being a produced entry whose stage function picks that
list. -/
theorem mem_ownershipList_iff (customers : List LCustomer) (today : Nat)
    (e : LEntry) (stage : OwnershipStage) :
    e ∈ ownershipList (analyzeSegments customers today) stage ↔
      (∃ c ∈ customers, ∃ v, c.vehicle = some v ∧ e = mkEntry today c v) ∧
        stageOf e = stage := by
  cases stage with
  | new_owners =>
      simp only [ownershipList]
      rw [mem_analyze_new_owners]
      constructor
      · rintro ⟨c, hc, v, hv, heq, hcond⟩
        rw [← heq] at hcond
        exact ⟨⟨c, hc, v, hv, heq⟩, (stageOf_eq_new e).mpr hcond⟩
      · rintro ⟨⟨c, hc, v, hv, heq⟩, hst⟩
        exact ⟨c, hc, v, hv, heq, heq ▸ (stageOf_eq_new e).mp hst⟩
  | early_owners =>
      simp only [ownershipList]
      rw [mem_analyze_early_owners]
      constructor
      · rintro ⟨c, hc, v, hv, heq, hcond⟩
        rw [← heq] at hcond
        exact ⟨⟨c, hc, v, hv, heq⟩, (stageOf_eq_early e).mpr hcond⟩
      · rintro ⟨⟨c, hc, v, hv, heq⟩, hst⟩
        exact ⟨c, hc, v, hv, heq, heq ▸ (stageOf_eq_early e).mp hst⟩
  | mid_owners =>
      simp only [ownershipList]
      rw [mem_analyze_mid_owners]
      constructor
      · rintro ⟨c, hc, v, hv, heq, hcond⟩
        rw [← heq] at hcond
        exact ⟨⟨c, hc, v, hv, heq⟩, (stageOf_eq_mid e).mpr hcond⟩
      · rintro ⟨⟨c, hc, v, hv, heq⟩, hst⟩
        exact ⟨c, hc, v, hv, heq, heq ▸ (stageOf_eq_mid e).mp hst⟩
  | veteran_owners =>
      simp only [ownershipList]
      rw [mem_analyze_veteran_owners]
      constructor
      · rintro ⟨c, hc, v, hv, heq, hcond⟩
        rw [← heq] at hcond
        exact ⟨⟨c, hc, v, hv, heq⟩, (stageOf_eq_veteran e).mpr hcond⟩
      · rintro ⟨⟨c, hc, v, hv, heq⟩, hst⟩
        exact ⟨c, hc, v, hv, heq, heq ▸ (stageOf_eq_veteran e).mp hst⟩

/-- C9: the ownership-stage cohorts of the lifecycle analyzer are
mutually exclusive and exhaustive — every processed customer whose record
carries a vehicle is placed in exactly one of `new_owners`,
`early_owners`, `mid_owners` or `veteran_owners`, determined solely by
the computed vehicle age (even though mileage/warranty/service cohorts
may additionally contain the same entry). -/
theorem c9_ownership_stages_partition (customers : List LCustomer)
    (today : Nat) (c : LCustomer) (v : LVehicle)
    (hc : c ∈ customers) (hv : c.vehicle = some v) :
    ∃! stage : OwnershipStage,
      mkEntry today c v ∈
        ownershipList (analyzeSegments customers today) stage := by
  exact ⟨stageOf (mkEntry today c v),
    (mem_ownershipList_iff customers today (mkEntry today c v)
      (stageOf (mkEntry today c v))).mpr ⟨⟨c, hc, v, hv, rfl⟩, rfl⟩,
    fun s hs => ((mem_ownershipList_iff customers today
      (mkEntry today c v) s).mp hs).2.symm⟩

/-- A sample lifecycle vehicle with 125000 km mileage and no recorded
dates. -/
def sampleUltraVehicle : LVehicle :=
  { purchase_date := none, mileage := some 125000,
    last_service_date := none, warranty_end := none }

/-- A sample lifecycle customer owning `sampleUltraVehicle`. -/
def sampleUltraCustomer : LCustomer :=
  { name := some "Uma", email := some "uma@example.com",
    vehicle := some sampleUltraVehicle }

/-- C9 witness: the partition theorem applied to a concrete single-customer
run. -/
theorem c9_ownership_stages_partition_witness :
    ∃! stage : OwnershipStage,
      mkEntry 739000 sampleUltraCustomer sampleUltraVehicle ∈
        ownershipList (analyzeSegments [sampleUltraCustomer] 739000) stage :=
  c9_ownership_stages_partition [sampleUltraCustomer] 739000
    sampleUltraCustomer sampleUltraVehicle (by decide) (by decide)

/-- C5 counterexample: a vehicle with mileage 125000 (≥ 100000) is placed
in the `ultra_high_mileage` cohort but, because the bucketing is an
`if/elif`, it is NOT also placed in the `high_mileage` cohort — the two
mileage cohorts never fire together. -/
theorem c5_counterexample_mileage_cohorts_exclusive :
    mkEntry 739000 sampleUltraCustomer sampleUltraVehicle ∈
      (analyzeSegments [sampleUltraCustomer] 739000).ultra_high_mileage ∧
    mkEntry 739000 sampleUltraCustomer sampleUltraVehicle ∉
      (analyzeSegments [sampleUltraCustomer] 739000).high_mileage := by
  decide

/-- C5 (amended): a vehicle with mileage ≥ 100000 is placed in the
`ultra_high_mileage` cohort only, and a vehicle with
50000 ≤ mileage < 100000 is placed in the `high_mileage` cohort; the two
mileage cohorts are mutually exclusive (`elif`), so a vehicle with
mileage ≥ 100000 is a member of `ultra_high_mileage` but not of
`high_mileage`. -/
theorem c5_mileage_cohort_membership (customers : List LCustomer)
    (today : Nat) (c : LCustomer) (v : LVehicle)
    (hc : c ∈ customers) (hv : c.vehicle = some v) :
    (mkEntry today c v ∈
        (analyzeSegments customers today).ultra_high_mileage ↔
      100000 ≤ v.mileage.getD 0) ∧
    (mkEntry today c v ∈ (analyzeSegments customers today).high_mileage ↔
      50000 ≤ v.mileage.getD 0 ∧ ¬ 100000 ≤ v.mileage.getD 0) := by
  constructor
  · rw [mem_analyze_ultra]
    constructor
    · rintro ⟨c₂, hc₂, v₂, hv₂, heq, hcond⟩
      rw [← heq] at hcond
      exact hcond
    · intro h
      exact ⟨c, hc, v, hv, rfl, h⟩
  · rw [mem_analyze_high]
    constructor
    · rintro ⟨c₂, hc₂, v₂, hv₂, heq, hcond⟩
      rw [← heq] at hcond
      exact ⟨hcond.2, hcond.1⟩
    · intro h
      exact ⟨c, hc, v, hv, rfl, h.2, h.1⟩

/-- C5 witness: the amended mileage-cohort theorem applied to the
concrete 125000-km customer. -/
theorem c5_mileage_cohort_membership_witness :
    (mkEntry 739000 sampleUltraCustomer sampleUltraVehicle ∈
        (analyzeSegments [sampleUltraCustomer] 739000).ultra_high_mileage ↔
      100000 ≤ sampleUltraVehicle.mileage.getD 0) ∧
    (mkEntry 739000 sampleUltraCustomer sampleUltraVehicle ∈
        (analyzeSegments [sampleUltraCustomer] 739000).high_mileage ↔
      50000 ≤ sampleUltraVehicle.mileage.getD 0 ∧
        ¬ 100000 ≤ sampleUltraVehicle.mileage.getD 0) :=
  c5_mileage_cohort_membership [sampleUltraCustomer] 739000
    sampleUltraCustomer sampleUltraVehicle (by decide) (by decide)

/-! ## `agents/email_sender_agent.py` — batched dispatch

`_send_email_batch` walks the campaign records in fixed-size batches and,
per record, calls `_send_individual_email`, sets the campaign status to
`sent` or `failed`, and collects the records whose send succeeded.
Status updates are modelled as an ordered write log of
`(campaign_id, status)` pairs (`_update_campaign_status` itself catches
its own database errors, so it never throws into the loop). -/

/-- One entry of the `campaign_records` list built by
`_create_campaign_records`. -/
structure CampaignRecord where
  campaign_id : String
  customer_id : Nat
  customer_name : String
  customer_email : String
  personalized_subject : String
  personalized_content : String
deriving DecidableEq, Repr

/-- The possible outcomes of one `send_transac_email` transport call:
a message id on success, an `ApiException`, or any other raised
exception. -/
inductive TransportOutcome where
  | success (messageId : String)
  | apiError (status : Nat) (reason : String)
  | exn (msg : String)
deriving DecidableEq, Repr

/-- `_send_individual_email`: run the transport call inside
`try/except`; a normal response returns `True`, the `except ApiException`
branch and the generic `except Exception` branch both log and return
`False` — no outcome escapes as an exception. -/
def sendIndividualEmail (outcome : TransportOutcome) : Bool :=
  match outcome with
  | .success _ => true
  | .apiError _ _ => false
  | .exn _ => false

/-- Campaign record status values (`created → sent` / `created → failed`). -/
inductive CampStatus where
  | created
  | sent
  | failed
deriving DecidableEq, Repr

/-- The per-record loop body of `_send_email_batch`: on success append
the record to `sent_campaigns` and write status `sent`; otherwise write
status `failed` and continue with the next record. -/
def processRecord (transport : CampaignRecord → TransportOutcome)
    (acc : List CampaignRecord × List (String × CampStatus))
    (r : CampaignRecord) :
    List CampaignRecord × List (String × CampStatus) :=
  if sendIndividualEmail (transport r) then
    (acc.1 ++ [r], acc.2 ++ [(r.campaign_id, CampStatus.sent)])
  else
    (acc.1, acc.2 ++ [(r.campaign_id, CampStatus.failed)])

/-- Fuel-indexed batch slicing, `records[i:i+batch_size]` for
`i in range(0, len(records), batch_size)`. -/
def chunksAux {α : Type} (b : Nat) : Nat → List α → List (List α)
  | _, [] => []
  | 0, l => [l]
  | fuel + 1, l => l.take b :: chunksAux b fuel (l.drop b)

/-- Slice a list into consecutive batches of size `b`. -/
def chunkList {α : Type} (b : Nat) (l : List α) : List (List α) :=
  chunksAux b l.length l

/-- `_send_email_batch`: process the records batch by batch (the
inter-record and inter-batch sleeps only pace the loop), returning the
list of sent records and the ordered status-write log. -/
def sendEmailBatch (transport : CampaignRecord → TransportOutcome)
    (batchSize : Nat) (records : List CampaignRecord) :
    List CampaignRecord × List (String × CampStatus) :=
  (chunkList batchSize records).foldl
    (fun acc batch => batch.foldl (processRecord transport) acc) ([], [])

theorem chunksAux_flatten {α : Type} (b : Nat) (fuel : Nat) (l : List α)
    (hb : 1 ≤ b) (hf : l.length ≤ fuel) :
    (chunksAux b fuel l).flatten = l := by
  induction fuel generalizing l with
  | zero =>
      cases l with
      | nil => rfl
      | cons x xs => simp at hf
  | succ n ih =>
      cases l with
      | nil => rfl
      | cons x xs =>
          have hlen : ((x :: xs).drop b).length ≤ n := by
            simp only [List.length_drop, List.length_cons]
            simp only [List.length_cons] at hf
            omega
          simp only [chunksAux, List.flatten_cons, ih _ hlen]
          exact List.take_append_drop b (x :: xs)

theorem chunkList_flatten {α : Type} (b : Nat) (l : List α)
    (hb : 1 ≤ b) : (chunkList b l).flatten = l :=
  chunksAux_flatten b l.length l hb le_rfl

theorem foldl_processRecord (transport : CampaignRecord → TransportOutcome)
    (records : List CampaignRecord)
    (acc : List CampaignRecord × List (String × CampStatus)) :
    records.foldl (processRecord transport) acc =
      (acc.1 ++ records.filter (fun r => sendIndividualEmail (transport r)),
       acc.2 ++ records.map (fun r => (r.campaign_id,
         if sendIndividualEmail (transport r) then CampStatus.sent
         else CampStatus.failed))) := by
  induction records generalizing acc with
  | nil => simp
  | cons r rs ih =>
      rw [List.foldl_cons, ih]
      by_cases h : sendIndividualEmail (transport r) <;>
        simp [processRecord, h, List.filter_cons]

/-- C2: dispatch isolates per-record failures.  For every record list,
every transport behaviour (including raising ones) and every positive
batch size: the batch loop returns normally; every record is attempted
(one status write per record, in order); a record whose transport call
fails or raises gets status `failed`; and the returned list is exactly
the records whose send succeeded, each having been marked `sent`. -/
theorem c2_dispatch_isolates_failures
    (transport : CampaignRecord → TransportOutcome) (batchSize : Nat)
    (hb : 1 ≤ batchSize) (records : List CampaignRecord) :
    sendEmailBatch transport batchSize records =
      (records.filter (fun r => sendIndividualEmail (transport r)),
       records.map (fun r => (r.campaign_id,
         if sendIndividualEmail (transport r) then CampStatus.sent
         else CampStatus.failed))) ∧
    (sendEmailBatch transport batchSize records).2.length =
      records.length ∧
    (∀ r ∈ records, sendIndividualEmail (transport r) = false →
      (r.campaign_id, CampStatus.failed) ∈
        (sendEmailBatch transport batchSize records).2) ∧
    (∀ r ∈ records, sendIndividualEmail (transport r) = true →
      r ∈ (sendEmailBatch transport batchSize records).1 ∧
      (r.campaign_id, CampStatus.sent) ∈
        (sendEmailBatch transport batchSize records).2) := by
  have hmain : sendEmailBatch transport batchSize records =
      (records.filter (fun r => sendIndividualEmail (transport r)),
       records.map (fun r => (r.campaign_id,
         if sendIndividualEmail (transport r) then CampStatus.sent
         else CampStatus.failed))) := by
    rw [sendEmailBatch, ← List.foldl_flatten,
      chunkList_flatten batchSize records hb, foldl_processRecord]
    simp
  refine ⟨hmain, ?_, ?_, ?_⟩
  · rw [hmain]; simp
  · intro r hr hfail
    rw [hmain]
    simp only [List.mem_map]
    exact ⟨r, hr, by simp [hfail]⟩
  · intro r hr hok
    rw [hmain]
    constructor
    · simp only [List.mem_filter]
      exact ⟨hr, hok⟩
    · simp only [List.mem_map]
      exact ⟨r, hr, by simp [hok]⟩

/-- Three concrete campaign records for the dispatch witness. -/
def sampleRecords : List CampaignRecord :=
  [{ campaign_id := "c1", customer_id := 1, customer_name := "A",
     customer_email := "a@x.com", personalized_subject := "s1",
     personalized_content := "b1" },
   { campaign_id := "c2", customer_id := 2, customer_name := "B",
     customer_email := "b@x.com", personalized_subject := "s2",
     personalized_content := "b2" },
   { campaign_id := "c3", customer_id := 3, customer_name := "C",
     customer_email := "c@x.com", personalized_subject := "s3",
     personalized_content := "b3" }]

/-- A transport behaviour that raises on the second record and succeeds
on the others. -/
def sampleTransport (r : CampaignRecord) : TransportOutcome :=
  if r.campaign_id = "c2" then TransportOutcome.exn "connection reset"
  else TransportOutcome.success ("msg-" ++ r.campaign_id)

/-- C2 witness: the dispatch theorem applied to three records of which
the middle one raises — the failed record gets status `failed`, the other
two are returned as sent. -/
theorem c2_dispatch_isolates_failures_witness :
    (∀ r ∈ sampleRecords, sendIndividualEmail (sampleTransport r) = false →
      (r.campaign_id, CampStatus.failed) ∈
        (sendEmailBatch sampleTransport 10 sampleRecords).2) ∧
    (∀ r ∈ sampleRecords, sendIndividualEmail (sampleTransport r) = true →
      r ∈ (sendEmailBatch sampleTransport 10 sampleRecords).1 ∧
      (r.campaign_id, CampStatus.sent) ∈
        (sendEmailBatch sampleTransport 10 sampleRecords).2) :=
  ⟨(c2_dispatch_isolates_failures sampleTransport 10 (by decide)
      sampleRecords).2.2.1,
   (c2_dispatch_isolates_failures sampleTransport 10 (by decide)
      sampleRecords).2.2.2⟩

/-! ## `workflows/campaign_workflow.py` — CampaignWorkflow

`run_campaign` invokes the compiled stage graph and turns the final
state — or an escaped exception — into a `WorkflowResult`.  The graph
invocation is modelled by its outcome: `Except` an exception message, a
final state.  (Wall-clock `execution_time` and the textual summary are
outside the embedding.) -/

/-- The final-state fields `run_campaign` reads. -/
structure FinalState where
  errors : List String
  campaigns_created : List String
  campaigns_sent : List String
  total_targeted : Nat
deriving DecidableEq, Repr

/-- The `WorkflowResult` fields relevant to the claims. -/
structure WorkflowResult where
  workflow_id : String
  status : String
  campaigns_created : Nat
  campaigns_sent : Nat
  total_targeted : Nat
  errors : List String
deriving DecidableEq, Repr

/-- `CampaignWorkflow.run_campaign`: on a normal graph invocation build a
result whose status is `success` when the error list is empty and
`partial_success` otherwise; when an exception escapes, build a `failed`
result with all counts zero. -/
def runCampaign (workflowId : String)
    (invokeResult : Except String FinalState) : WorkflowResult :=
  match invokeResult with
  | .ok fs =>
      { workflow_id := workflowId
        status := if fs.errors = [] then "success" else "partial_success"
        campaigns_created := fs.campaigns_created.length
        campaigns_sent := fs.campaigns_sent.length
        total_targeted := fs.total_targeted
        errors := fs.errors }
  | .error e =>
      { workflow_id := workflowId
        status := "failed"
        campaigns_created := 0
        campaigns_sent := 0
        total_targeted := 0
        errors := [e] }

/-- C3: the run result's status is `success` exactly when the graph
returned normally with an empty error list; `partial_success` when errors
are present (in particular when sends also occurred); and `failed` — with
targeted, created and sent counts all zero — exactly when an
unrecoverable exception escaped a stage. -/
theorem c3_runResult_status (workflowId : String)
    (invokeResult : Except String FinalState) :
    ((runCampaign workflowId invokeResult).status = "success" ↔
      ∃ fs, invokeResult = Except.ok fs ∧ fs.errors = []) ∧
    (∀ fs, invokeResult = Except.ok fs → fs.errors ≠ [] →
      fs.campaigns_sent ≠ [] →
      (runCampaign workflowId invokeResult).status = "partial_success") ∧
    ((runCampaign workflowId invokeResult).status = "failed" ↔
      ∃ e, invokeResult = Except.error e) ∧
    (∀ e, invokeResult = Except.error e →
      (runCampaign workflowId invokeResult).total_targeted = 0 ∧
      (runCampaign workflowId invokeResult).campaigns_created = 0 ∧
      (runCampaign workflowId invokeResult).campaigns_sent = 0) := by
  cases invokeResult with
  | ok fs =>
      by_cases herr : fs.errors = [] <;>
        simp [runCampaign, herr]
  | error e =>
      simp [runCampaign]

/-- C3 witness: the status theorem applied to a concrete final state with
one error and one sent campaign, and to a concrete escaped exception. -/
theorem c3_runResult_status_witness :
    (runCampaign "w1" (Except.ok
      { errors := ["weather lookup failed"], campaigns_created := ["a"],
        campaigns_sent := ["a"], total_targeted := 5 })).status =
      "partial_success" ∧
    (runCampaign "w2" (Except.error "boom")).total_targeted = 0 ∧
    (runCampaign "w2" (Except.error "boom")).campaigns_created = 0 ∧
    (runCampaign "w2" (Except.error "boom")).campaigns_sent = 0 :=
  ⟨(c3_runResult_status "w1" (Except.ok
      { errors := ["weather lookup failed"], campaigns_created := ["a"],
        campaigns_sent := ["a"], total_targeted := 5 })).2.1 _ rfl
      (by decide) (by decide),
   (c3_runResult_status "w2" (Except.error "boom")).2.2.2 "boom" rfl⟩

/-- The nodes of the compiled LangGraph workflow
(`_build_workflow`), plus the terminal `END`. -/
inductive WorkflowNode where
  | customer_targeting
  | weather_analysis
  | holiday_analysis
  | vehicle_lifecycle_analysis
  | campaign_generation
  | email_sending
  | finalizeNode
  | endNode
deriving DecidableEq, Repr

/-- `_route_after_targeting`: the routing label is a pure function of
`state.get('campaign_trigger', 'scheduled')`. -/
def routeAfterTargeting (campaignTrigger : Option String) : String :=
  let trigger := campaignTrigger.getD "scheduled"
  if trigger = "weather" then "weather"
  else if trigger = "holiday" then "holiday"
  else if trigger = "lifecycle" then "lifecycle"
  else "lifecycle"

/-- The conditional-edge mapping installed on `customer_targeting` by
`_build_workflow`. -/
def conditionalEdgeTarget (label : String) : Option WorkflowNode :=
  if label = "weather" then some WorkflowNode.weather_analysis
  else if label = "holiday" then some WorkflowNode.holiday_analysis
  else if label = "lifecycle" then some WorkflowNode.vehicle_lifecycle_analysis
  else if label = "scheduled" then some WorkflowNode.vehicle_lifecycle_analysis
  else none

/-- The unconditional edges of `_build_workflow`. -/
def nextNode : WorkflowNode → Option WorkflowNode
  | WorkflowNode.weather_analysis => some WorkflowNode.campaign_generation
  | WorkflowNode.holiday_analysis => some WorkflowNode.campaign_generation
  | WorkflowNode.vehicle_lifecycle_analysis => some WorkflowNode.campaign_generation
  | WorkflowNode.campaign_generation => some WorkflowNode.email_sending
  | WorkflowNode.email_sending => some WorkflowNode.finalizeNode
  | WorkflowNode.finalizeNode => some WorkflowNode.endNode
  | _ => none

/-- Follow the unconditional edges from a node (with fuel; the graph is
finite and acyclic). -/
def pathFrom : Nat → WorkflowNode → List WorkflowNode
  | 0, _ => []
  | fuel + 1, n =>
      match nextNode n with
      | none => []
      | some m => m :: pathFrom fuel m

/-- The stage sequence a run visits, from the `customer_targeting` entry
point through the conditional edge and on to the terminal node. -/
def stagePath (campaignTrigger : Option String) : List WorkflowNode :=
  match conditionalEdgeTarget (routeAfterTargeting campaignTrigger) with
  | none => [WorkflowNode.customer_targeting]
  | some n => WorkflowNode.customer_targeting :: n :: pathFrom 8 n

/-- C6: routing after targeting is a pure function of the trigger kind —
`weather` visits the weather-analysis stage, `holiday` the
holiday-analysis stage, and every other trigger value (including
`lifecycle`, `scheduled`, and a missing trigger) goes straight to the
vehicle-lifecycle stage, never visiting the weather or holiday stages;
all three paths converge on campaign generation. -/
theorem c6_routing_pure_function_of_trigger (t : String) :
    (t = "weather" → stagePath (some t) =
      [WorkflowNode.customer_targeting, WorkflowNode.weather_analysis,
       WorkflowNode.campaign_generation, WorkflowNode.email_sending,
       WorkflowNode.finalizeNode, WorkflowNode.endNode]) ∧
    (t = "holiday" → stagePath (some t) =
      [WorkflowNode.customer_targeting, WorkflowNode.holiday_analysis,
       WorkflowNode.campaign_generation, WorkflowNode.email_sending,
       WorkflowNode.finalizeNode, WorkflowNode.endNode]) ∧
    (t ≠ "weather" → t ≠ "holiday" →
      stagePath (some t) =
        [WorkflowNode.customer_targeting,
         WorkflowNode.vehicle_lifecycle_analysis,
         WorkflowNode.campaign_generation, WorkflowNode.email_sending,
         WorkflowNode.finalizeNode, WorkflowNode.endNode] ∧
      WorkflowNode.weather_analysis ∉ stagePath (some t) ∧
      WorkflowNode.holiday_analysis ∉ stagePath (some t)) ∧
    nextNode WorkflowNode.weather_analysis =
      some WorkflowNode.campaign_generation ∧
    nextNode WorkflowNode.holiday_analysis =
      some WorkflowNode.campaign_generation ∧
    nextNode WorkflowNode.vehicle_lifecycle_analysis =
      some WorkflowNode.campaign_generation := by
  refine ⟨?_, ?_, ?_, rfl, rfl, rfl⟩
  · intro h; subst h; rfl
  · intro h; subst h; rfl
  · intro h1 h2
    have hroute : routeAfterTargeting (some t) = "lifecycle" := by
      simp [routeAfterTargeting, h1, h2]
    have hpath : stagePath (some t) =
        [WorkflowNode.customer_targeting,
         WorkflowNode.vehicle_lifecycle_analysis,
         WorkflowNode.campaign_generation, WorkflowNode.email_sending,
         WorkflowNode.finalizeNode, WorkflowNode.endNode] := by
      rw [stagePath, hroute]
      rfl
    refine ⟨hpath, ?_, ?_⟩ <;> rw [hpath] <;> decide

/-- C6 witness: the routing theorem applied to the `scheduled` trigger,
which goes straight to the lifecycle stage with no weather or holiday
stage on its path. -/
theorem c6_routing_pure_function_of_trigger_witness :
    stagePath (some "scheduled") =
      [WorkflowNode.customer_targeting,
       WorkflowNode.vehicle_lifecycle_analysis,
       WorkflowNode.campaign_generation, WorkflowNode.email_sending,
       WorkflowNode.finalizeNode, WorkflowNode.endNode] ∧
    WorkflowNode.weather_analysis ∉ stagePath (some "scheduled") ∧
    WorkflowNode.holiday_analysis ∉ stagePath (some "scheduled") :=
  (c6_routing_pure_function_of_trigger "scheduled").2.2.1
    (by decide) (by decide)

/-! ## `agents/holiday_agent.py` — primary-holiday selection

`_select_primary_holiday` scores each upcoming holiday, sorts the
`(holiday, score)` pairs by score in descending order (Python's stable
`list.sort(reverse=True)`), and picks the first. -/

/-- An upcoming-holiday dictionary as scored by the agent. -/
structure Holiday where
  name : String
  date : Option String
  type : Option String
  travel_impact : Option String
  days_until : Option Int
deriving DecidableEq, Repr

/-- Python `str.lower()`. -/
def lowerStr (s : String) : String :=
  String.mk (s.data.map Char.toLower)

/-- The type-priority component of `holiday_priority_score`:
`Major Festival` 10, `Festival` 7, `Religious Festival` 8. -/
def holidayTypeWeight (t : Option String) : Nat :=
  if t = some "Major Festival" then 10
  else if t = some "Festival" then 7
  else if t = some "Religious Festival" then 8
  else 0

/-- The travel-impact component:
`holiday.get('travel_impact', 'Low').lower()`, `high` 5, `medium` 3. -/
def travelImpactWeight (ti : Option String) : Nat :=
  let s := lowerStr (ti.getD "Low")
  if s = "high" then 5
  else if s = "medium" then 3
  else 0

/-- The proximity component on `holiday.get('days_until', 30)`:
7–21 days out scores 8 (the sweet spot), otherwise 3–30 days scores 5. -/
def proximityWeight (d : Int) : Nat :=
  if 7 ≤ d ∧ d ≤ 21 then 8
  else if 3 ≤ d ∧ d ≤ 30 then 5
  else 0

/-- `holiday_priority_score`: the sum of the three components. -/
def holidayPriorityScore (h : Holiday) : Nat :=
  holidayTypeWeight h.type + travelImpactWeight h.travel_impact +
    proximityWeight (h.days_until.getD 30)

/-- `_select_primary_holiday`: `None` on an empty list; otherwise sort
`(holiday, score)` pairs by score descending (stably) and take the
first. -/
def selectPrimaryHoliday (holidays : List Holiday) : Option Holiday :=
  match holidays with
  | [] => none
  | _ =>
      let sorted := (holidays.map
          (fun h => (h, holidayPriorityScore h))).mergeSort
        (fun a b => decide (b.2 ≤ a.2))
      sorted.head?.map Prod.fst

/-- C7: for every non-empty upcoming-holiday list the agent selects a
holiday of the list whose priority score is maximal, where the score is
the sum of the type weight (Major Festival 10, Religious Festival 8,
Festival 7), the travel-impact weight (high 5, medium 3), and the
proximity weight, on which the 7–21-day window scores strictly highest. -/
theorem c7_primary_holiday_maximal (holidays : List Holiday)
    (hne : holidays ≠ []) :
    (∃ h, selectPrimaryHoliday holidays = some h ∧ h ∈ holidays ∧
      ∀ h₂ ∈ holidays,
        holidayPriorityScore h₂ ≤ holidayPriorityScore h) ∧
    holidayTypeWeight (some "Major Festival") = 10 ∧
    holidayTypeWeight (some "Religious Festival") = 8 ∧
    holidayTypeWeight (some "Festival") = 7 ∧
    travelImpactWeight (some "High") = 5 ∧
    travelImpactWeight (some "Medium") = 3 ∧
    (∀ d : Int, proximityWeight d ≤ 8) ∧
    (∀ d : Int, 7 ≤ d → d ≤ 21 → proximityWeight d = 8) := by
  refine ⟨?_, by decide, by decide, by decide, by decide, by decide,
    ?_, ?_⟩
  · match holidays, hne with
    | h₀ :: rest, _ =>
        set pairs := ((h₀ :: rest).map
          (fun h => (h, holidayPriorityScore h))) with hpairs
        set sorted := pairs.mergeSort (fun a b => decide (b.2 ≤ a.2))
          with hsorted
        have hperm : List.Perm sorted pairs := List.mergeSort_perm pairs _
        have hsne : sorted ≠ [] := by
          intro hbad
          have := hperm.length_eq
          rw [hbad, hpairs] at this
          simp at this
        obtain ⟨p, rest₂, hps⟩ := List.exists_cons_of_ne_nil hsne
        have hsel : selectPrimaryHoliday (h₀ :: rest) = some p.1 := by
          simp only [selectPrimaryHoliday]
          rw [← hpairs, ← hsorted, hps]
          rfl
        have hpmem : p ∈ pairs := hperm.subset (by rw [hps]; simp)
        obtain ⟨hp, hpmem₂, hpeq⟩ := List.mem_map.mp hpmem
        have hp2 : p.2 = holidayPriorityScore p.1 := by
          rw [← hpeq]
        refine ⟨p.1, hsel, by rw [← hpeq]; exact hpmem₂, ?_⟩
        intro h₂ hh₂
        have hsort : List.Pairwise
            (fun a b : Holiday × Nat => decide (b.2 ≤ a.2) = true)
            sorted := by
          refine List.sorted_mergeSort ?_ ?_ pairs
          · intro a b c hab hbc
            simp only [decide_eq_true_eq] at hab hbc ⊢
            omega
          · intro a b
            simp only [Bool.or_eq_true, decide_eq_true_eq]
            omega
        have hmem₂ : (h₂, holidayPriorityScore h₂) ∈ sorted :=
          hperm.symm.subset (List.mem_map.mpr ⟨h₂, hh₂, rfl⟩)
        rw [hps] at hmem₂ hsort
        rcases List.mem_cons.mp hmem₂ with heq | hmem₃
        · have : holidayPriorityScore h₂ = p.2 := by
            rw [← heq]
          rw [this, hp2]
        · have := (List.pairwise_cons.mp hsort).1 _ hmem₃
          simp only [decide_eq_true_eq] at this
          rw [← hp2]
          exact this
  · intro d
    unfold proximityWeight
    split_ifs <;> omega
  · intro d h7 h21
    unfold proximityWeight
    rw [if_pos ⟨h7, h21⟩]

/-- C7 witness: the selection theorem applied to a concrete two-holiday
list. -/
theorem c7_primary_holiday_maximal_witness :
    ∃ h, selectPrimaryHoliday
        [{ name := "Diwali", date := some "2025-10-20",
           type := some "Major Festival", travel_impact := some "High",
           days_until := some 8 },
         { name := "Karva Chauth", date := some "2025-10-10",
           type := some "Festival", travel_impact := some "Medium",
           days_until := some 2 }] = some h ∧
      h ∈ [{ name := "Diwali", date := some "2025-10-20",
             type := some "Major Festival", travel_impact := some "High",
             days_until := some 8 },
           { name := "Karva Chauth", date := some "2025-10-10",
             type := some "Festival", travel_impact := some "Medium",
             days_until := some 2 }] ∧
      ∀ h₂ ∈ [{ name := "Diwali", date := some "2025-10-20",
                type := some "Major Festival",
                travel_impact := some "High", days_until := some 8 },
              { name := "Karva Chauth", date := some "2025-10-10",
                type := some "Festival", travel_impact := some "Medium",
                days_until := some 2 }],
        holidayPriorityScore h₂ ≤ holidayPriorityScore h :=
  (c7_primary_holiday_maximal _ (by decide)).1

/-! ## `agents/targeting_agent.py` — the segmentation error boundary

`_segment_customers` wraps everything — connection, the count probe, and
the trigger-dependent targeting query — in one `try/except` that logs the
error and returns the empty list, so no database failure escapes the
targeting stage.  The database interactions are modelled by their
outcomes. -/

/-- A vehicle row joined onto a targeted customer. -/
structure TVehicle where
  vehicle_id : Nat
  make : Option String
  model : Option String
  year : Option Int
  last_service_date : Option String
  next_service_due : Option String
  warranty_end : Option String
  mileage : Option Nat
deriving DecidableEq, Repr

/-- A `CustomerData` record produced by `_process_customer_results`. -/
structure CustomerData where
  customer_id : Nat
  name : Option String
  email : Option String
  phone : Option String
  preferred_location : Option String
  vehicles : List TVehicle
deriving DecidableEq, Repr

/-- `_segment_customers`: run the count probe, then the location-based
query for `weather`/`holiday` triggers or the service-need query for
every other trigger; any raised error is caught at this boundary, logged
(`Error segmenting customers: ...`), and turned into the empty customer
list.  The function always returns — the pair is the returned segment
list together with the error log. -/
def segmentCustomers (campaignTrigger : String)
    (countQuery : Except String Nat)
    (locationQuery serviceQuery : Except String (List CustomerData)) :
    List CustomerData × List String :=
  match
    (do
      let _ ← countQuery
      if campaignTrigger = "weather" ∨ campaignTrigger = "holiday" then
        locationQuery
      else
        serviceQuery : Except String (List CustomerData))
  with
  | Except.ok segments => (segments, [])
  | Except.error e => ([], ["Error segmenting customers: " ++ e])

/-- C8: segmentation never raises past its boundary — for every trigger
kind, if the count probe or the trigger-appropriate data-store lookup
fails, `_segment_customers` returns the empty customer list together
with the recorded error, and a successful lookup passes its customers
through; in every case a value is returned so downstream stages still
run. -/
theorem c8_segmentation_error_boundary (campaignTrigger : String) :
    (∀ e locationQuery serviceQuery,
      segmentCustomers campaignTrigger (Except.error e)
          locationQuery serviceQuery =
        ([], ["Error segmenting customers: " ++ e])) ∧
    (∀ n e serviceQuery,
      (campaignTrigger = "weather" ∨ campaignTrigger = "holiday") →
      segmentCustomers campaignTrigger (Except.ok n)
          (Except.error e) serviceQuery =
        ([], ["Error segmenting customers: " ++ e])) ∧
    (∀ n e locationQuery,
      campaignTrigger ≠ "weather" → campaignTrigger ≠ "holiday" →
      segmentCustomers campaignTrigger (Except.ok n)
          locationQuery (Except.error e) =
        ([], ["Error segmenting customers: " ++ e])) ∧
    (∀ n customers serviceQuery,
      (campaignTrigger = "weather" ∨ campaignTrigger = "holiday") →
      segmentCustomers campaignTrigger (Except.ok n)
          (Except.ok customers) serviceQuery = (customers, [])) := by
  refine ⟨?_, ?_, ?_, ?_⟩
  · intro e locationQuery serviceQuery
    rfl
  · intro n e serviceQuery htrig
    rcases htrig with h | h <;> subst h <;> rfl
  · intro n e locationQuery h1 h2
    simp only [segmentCustomers, h1, h2, or_self, if_false]
    rfl
  · intro n customers serviceQuery htrig
    rcases htrig with h | h <;> subst h <;> rfl

/-- C8 witness: the boundary theorem applied to a weather run whose
location lookup raises. -/
theorem c8_segmentation_error_boundary_witness :
    segmentCustomers "weather" (Except.ok 12)
        (Except.error "connection refused") (Except.ok []) =
      ([], ["Error segmenting customers: connection refused"]) :=
  (c8_segmentation_error_boundary "weather").2.1 12 "connection refused"
    (Except.ok []) (Or.inl rfl)

/-! ## `agents/email_sender_agent.py` / `agents/group_email_sender.py` —
personalization

`_personalize_content` builds a fixed ten-placeholder mapping and applies
Python `str.replace` for each entry over the subject line and body;
`_personalize_template` of the group sender instead calls
`str.format(**personalization)` with a fixed six-field mapping.
A template is modelled by its token decomposition — an alternating
sequence of literal segments and placeholder references (the standard
reading of a template string; substituted values are opaque text).  Under
`str.replace`, a placeholder whose token is not in the mapping stays in
the output verbatim; under `str.format`, a field missing from the mapping
raises `KeyError`. -/

/-- The literal text of a `{{...}}`-style replace placeholder. -/
def phToken (name : String) : String :=
  "\x7b\x7b" ++ name ++ "\x7d\x7d"

/-- A template token: a literal segment or a placeholder reference. -/
inductive TmplTok where
  | lit (s : String)
  | ph (name : String)
deriving DecidableEq, Repr

/-- The customer fields read during personalization. -/
structure PCustomer where
  name : Option String
  preferred_location : Option String
deriving DecidableEq, Repr

/-- The vehicle fields read by `_personalize_content`. -/
structure PVehicle where
  make : Option String
  model : Option String
  year : Option Nat
  mileage : Option Nat
  last_service_date : Option String
  next_service_due : Option String
  warranty_end : Option String
deriving DecidableEq, Repr

/-- Month names for `strftime('%B %d, %Y')`. -/
def monthName (m : Nat) : String :=
  (["January", "February", "March", "April", "May", "June", "July",
    "August", "September", "October", "November", "December"].get?
    (m - 1)).getD ""

/-- Zero-padded two-digit day for `strftime('%d')`. -/
def pad2 (n : Nat) : String :=
  if n < 10 then "0" ++ toString n else toString n

/-- `datetime.fromisoformat` on the stored date strings (the leading
`YYYY-MM-DD` part carries the date; a malformed string fails). -/
def parseIsoFormat (s : String) : Option (Nat × Nat × Nat) :=
  match s.data.take 10 with
  | [y1, y2, y3, y4, '-', m1, m2, '-', d1, d2] => do
      let a ← digitVal y1
      let b ← digitVal y2
      let c ← digitVal y3
      let d ← digitVal y4
      let e ← digitVal m1
      let f ← digitVal m2
      let g ← digitVal d1
      let h ← digitVal d2
      pure (a * 1000 + b * 100 + c * 10 + d, e * 10 + f, g * 10 + h)
  | _ => none

/-- `_format_date`: a missing date renders as `Not Available`; a parsable
ISO string renders as `%B %d, %Y`; anything else falls back to the raw
string (`str(date_str)`). -/
def formatDate : Option String → String
  | none => "Not Available"
  | some s =>
      match parseIsoFormat s with
      | some ymd =>
          monthName ymd.2.1 ++ " " ++ pad2 ymd.2.2 ++ ", " ++
            toString ymd.1
      | none => s

/-- `_get_warranty_status`: missing or unparsable end date renders
`Check with service center`; a future date within 30 days renders
`Expires in N days`, further out `Active`; a past date renders
`Expired`.  `today` is the day number of `datetime.now()`. -/
def getWarrantyStatus (today : Nat) (v : PVehicle) : String :=
  match v.warranty_end with
  | none => "Check with service center"
  | some s =>
      match parseIsoFormat s with
      | none => "Check with service center"
      | some ymd =>
          if (today : Int) < (toDays ymd : Int) then
            if (toDays ymd : Int) - (today : Int) ≤ 30 then
              "Expires in " ++ toString ((toDays ymd : Int) - (today : Int)) ++ " days"
            else "Active"
          else "Expired"

/-- Strip leading/trailing spaces (Python `str.strip()` on the
space-joined vehicle info). -/
def stripStr (s : String) : String :=
  String.mk (((s.data.dropWhile (· = ' ')).reverse.dropWhile
    (· = ' ')).reverse)

/-- The `{{vehicle_info}}` value:
`f"{year} {make} {model}".strip()` with empty-string defaults. -/
def vehicleInfo (v : PVehicle) : String :=
  stripStr ((v.year.map toString).getD "" ++ " " ++ v.make.getD "" ++
    " " ++ v.model.getD "")

/-- The `personalizations` mapping of `_personalize_content`: the fixed
placeholder vocabulary with its supplied values and documented
defaults. -/
def personalizations (today : Nat) (customer : PCustomer)
    (vehicle : PVehicle) : List (String × String) :=
  [(phToken "customer_name", customer.name.getD "Valued Customer"),
   (phToken "vehicle_info", vehicleInfo vehicle),
   (phToken "vehicle_make", vehicle.make.getD "your vehicle"),
   (phToken "vehicle_model", vehicle.model.getD ""),
   (phToken "vehicle_year", (vehicle.year.map toString).getD ""),
   (phToken "last_service_date", formatDate vehicle.last_service_date),
   (phToken "next_service_due", formatDate vehicle.next_service_due),
   (phToken "mileage",
     match vehicle.mileage with
     | some m => if m ≠ 0 then toString m ++ " km" else "N/A"
     | none => "N/A"),
   (phToken "warranty_status", getWarrantyStatus today vehicle),
   (phToken "customer_location",
     customer.preferred_location.getD "your area")]

/-- Replace-based rendering of one token: a placeholder whose token is a
key of the mapping becomes its value, every other placeholder stays in
the output as its raw `{{...}}` text (no `str.replace` call touches
it). -/
def renderTokReplace (mapping : List (String × String)) :
    TmplTok → String
  | TmplTok.lit s => s
  | TmplTok.ph n =>
      match mapping.lookup (phToken n) with
      | some v => v
      | none => phToken n

/-- Replace-based rendering of a whole template. -/
def renderReplace (mapping : List (String × String))
    (toks : List TmplTok) : String :=
  String.join (toks.map (renderTokReplace mapping))

/-- `_personalize_content`: render subject line and body against the
ten-placeholder mapping; a pure function of its inputs — it has no
raising operation. -/
def personalizeContent (today : Nat) (customer : PCustomer)
    (vehicle : PVehicle) (subject content : List TmplTok) :
    String × String :=
  (renderReplace (personalizations today customer vehicle) subject,
   renderReplace (personalizations today customer vehicle) content)

/-- The vehicle fields read by the group sender's
`_personalize_template`. -/
structure GSVehicle where
  make : Option String
  model : Option String
  warranty_end_date : Option String
  last_service_date : Option String
deriving DecidableEq, Repr

/-- The `personalization` mapping of `_personalize_template` (six fixed
fields, raw defaults). -/
def groupPersonalization (customer : PCustomer) (vehicle : GSVehicle) :
    List (String × String) :=
  [("customer_name", customer.name.getD "Valued Customer"),
   ("vehicle_make", vehicle.make.getD "Your Vehicle"),
   ("vehicle_model", vehicle.model.getD ""),
   ("warranty_end_date", vehicle.warranty_end_date.getD "Soon"),
   ("last_service_date", vehicle.last_service_date.getD "Long ago"),
   ("service_interval", "6")]

/-- Python `str.format(**mapping)` on a template: fields are substituted
left to right; a field absent from the mapping raises `KeyError`
(`none`). -/
def pyFormat (mapping : List (String × String)) :
    List TmplTok → Option String
  | [] => some ""
  | TmplTok.lit s :: rest => (pyFormat mapping rest).map (s ++ ·)
  | TmplTok.ph n :: rest =>
      match mapping.lookup n with
      | some v => (pyFormat mapping rest).map (v ++ ·)
      | none => none

/-- `_personalize_template` of the group sender: format the subject line
and the content template with the six-field mapping; raises (`none`)
when either mentions an unknown field. -/
def personalizeTemplate (customer : PCustomer) (vehicle : GSVehicle)
    (subject content : List TmplTok) : Option (String × String) := do
  let s ← pyFormat (groupPersonalization customer vehicle) subject
  let c ← pyFormat (groupPersonalization customer vehicle) content
  pure (s, c)

theorem lookup_mem {l : List (String × String)} {k v : String}
    (h : l.lookup k = some v) : (k, v) ∈ l := by
  induction l with
  | nil => simp [List.lookup] at h
  | cons p rest ih =>
      rw [List.lookup] at h
      by_cases hk : k == p.1
      · have hk2 : k = p.1 := by simpa using hk
        simp [hk] at h
        cases p with
        | mk a b =>
            simp at hk2 h
            subst hk2
            subst h
            exact List.mem_cons_self _ _
      · simp [hk] at h
        exact List.mem_cons_of_mem _ (ih h)

theorem pyFormat_eq_none_iff (mapping : List (String × String))
    (toks : List TmplTok) :
    pyFormat mapping toks = none ↔
      ∃ n, TmplTok.ph n ∈ toks ∧ mapping.lookup n = none := by
  induction toks with
  | nil => simp [pyFormat]
  | cons t rest ih =>
      cases t with
      | lit s =>
          rw [pyFormat]
          cases hrest : pyFormat mapping rest with
          | none =>
              simp only [hrest, Option.map_none']
              constructor
              · intro _
                obtain ⟨n, hn, hl⟩ := ih.mp hrest
                exact ⟨n, List.mem_cons_of_mem _ hn, hl⟩
              · intro _
                trivial
          | some out =>
              simp only [hrest, Option.map_some']
              constructor
              · intro h
                simp at h
              · rintro ⟨n, hn, hl⟩
                rcases List.mem_cons.mp hn with h | h
                · cases h
                · have hcontra := ih.mpr ⟨n, h, hl⟩
                  rw [hrest] at hcontra
                  simp at hcontra
      | ph n =>
          rw [pyFormat]
          cases hl : mapping.lookup n with
          | none =>
              constructor
              · intro _
                exact ⟨n, List.mem_cons_self _ _, hl⟩
              · intro _
                rfl
          | some v =>
              cases hrest : pyFormat mapping rest with
              | none =>
                  simp only [hrest, Option.map_none']
                  constructor
                  · intro _
                    obtain ⟨m, hm, hlm⟩ := ih.mp hrest
                    exact ⟨m, List.mem_cons_of_mem _ hm, hlm⟩
                  · intro _
                    trivial
              | some out =>
                  simp only [hrest, Option.map_some']
                  constructor
                  · intro h
                    simp at h
                  · rintro ⟨m, hm, hlm⟩
                    rcases List.mem_cons.mp hm with h | h
                    · obtain rfl : m = n := by injection h
                      rw [hl] at hlm
                      simp at hlm
                    · have hcontra := ih.mpr ⟨m, h, hlm⟩
                      rw [hrest] at hcontra
                      simp at hcontra

/-- The customer/vehicle dictionaries with every optional field
missing. -/
def emptyPCustomer : PCustomer :=
  { name := none, preferred_location := none }

/-- The `_personalize_content` vehicle dict with every field missing. -/
def emptyPVehicle : PVehicle :=
  { make := none, model := none, year := none, mileage := none,
    last_service_date := none, next_service_due := none,
    warranty_end := none }

/-- The group-sender vehicle dict with every field missing. -/
def emptyGSVehicle : GSVehicle :=
  { make := none, model := none, warranty_end_date := none,
    last_service_date := none }

/-- C4 counterexample: rendering a template containing the placeholder
`{{discount_code}}` — outside the fixed vocabulary — leaves the raw
placeholder token in the output, and the group sender's format-based
renderer raises (`KeyError`, modelled as `none`) on the same template;
so personalization is not total over every campaign template. -/
theorem c4_counterexample_unknown_placeholder :
    (personalizeContent 739000 emptyPCustomer emptyPVehicle
        [TmplTok.ph "customer_name"] [TmplTok.ph "discount_code"]).2 =
      phToken "discount_code" ∧
    phToken "discount_code" = "\x7b\x7bdiscount_code\x7d\x7d" ∧
    personalizeTemplate emptyPCustomer emptyGSVehicle
        [] [TmplTok.ph "discount_code"] = none := by
  refine ⟨?_, rfl, ?_⟩ <;> rfl

/-- C4 (amended): personalization substitutes each placeholder of the
fixed vocabulary with the supplied value or its documented default
(`Valued Customer`, `your vehicle`, `Not Available`,
`Check with service center`, ...), and the replace-based renderer of the
email sender never raises — but a placeholder outside the fixed
vocabulary is left verbatim as its raw `{{...}}` token in the output,
and the group sender's format-based renderer raises exactly when the
template references a field outside its fixed six-field mapping. -/
theorem c4_personalization_totality (today : Nat) (customer : PCustomer)
    (vehicle : PVehicle) (gsv : GSVehicle) (toks : List TmplTok) :
    ((∀ n, TmplTok.ph n ∈ toks →
        (personalizations today customer vehicle).lookup (phToken n) ≠
          none) →
      ∀ piece ∈ toks.map
          (renderTokReplace (personalizations today customer vehicle)),
        (∃ s, TmplTok.lit s ∈ toks ∧ piece = s) ∨
        (∃ tok v, (tok, v) ∈ personalizations today customer vehicle ∧
          piece = v)) ∧
    (customer.name = none →
      (personalizations today customer vehicle).lookup
        (phToken "customer_name") = some "Valued Customer") ∧
    (vehicle.make = none →
      (personalizations today customer vehicle).lookup
        (phToken "vehicle_make") = some "your vehicle") ∧
    (vehicle.last_service_date = none →
      (personalizations today customer vehicle).lookup
        (phToken "last_service_date") = some "Not Available") ∧
    (vehicle.warranty_end = none →
      (personalizations today customer vehicle).lookup
        (phToken "warranty_status") = some "Check with service center") ∧
    (∀ n, (personalizations today customer vehicle).lookup (phToken n) =
        none →
      renderTokReplace (personalizations today customer vehicle)
        (TmplTok.ph n) = phToken n) ∧
    (pyFormat (groupPersonalization customer gsv) toks = none ↔
      ∃ n, TmplTok.ph n ∈ toks ∧
        (groupPersonalization customer gsv).lookup n = none) := by
  refine ⟨?_, ?_, ?_, ?_, ?_, ?_, pyFormat_eq_none_iff _ _⟩
  · intro hvocab piece hpiece
    rw [List.mem_map] at hpiece
    obtain ⟨tok, htok, hrender⟩ := hpiece
    cases tok with
    | lit s =>
        left
        exact ⟨s, htok, by rw [← hrender]; rfl⟩
    | ph n =>
        right
        cases hl : (personalizations today customer vehicle).lookup
            (phToken n) with
        | none => exact absurd hl (hvocab n htok)
        | some v =>
            refine ⟨phToken n, v, lookup_mem hl, ?_⟩
            rw [← hrender]
            simp [renderTokReplace, hl]
  · intro h
    have hbase : (personalizations today customer vehicle).lookup
        (phToken "customer_name") =
        some (customer.name.getD "Valued Customer") := rfl
    rw [hbase, h]
    rfl
  · intro h
    have hbase : (personalizations today customer vehicle).lookup
        (phToken "vehicle_make") =
        some (vehicle.make.getD "your vehicle") := rfl
    rw [hbase, h]
    rfl
  · intro h
    have hbase : (personalizations today customer vehicle).lookup
        (phToken "last_service_date") =
        some (formatDate vehicle.last_service_date) := rfl
    rw [hbase, h]
    rfl
  · intro h
    have hbase : (personalizations today customer vehicle).lookup
        (phToken "warranty_status") =
        some (getWarrantyStatus today vehicle) := rfl
    rw [hbase]
    simp [getWarrantyStatus, h]
  · intro n h
    simp [renderTokReplace, h]

/-- C4 witness: the amended theorem applied to a concrete template over
the fixed vocabulary and a customer/vehicle with every optional field
missing. -/
theorem c4_personalization_totality_witness :
    (∀ piece ∈ [TmplTok.lit "Dear ", TmplTok.ph "customer_name"].map
        (renderTokReplace
          (personalizations 739000 emptyPCustomer emptyPVehicle)),
      (∃ s, TmplTok.lit s ∈
          [TmplTok.lit "Dear ", TmplTok.ph "customer_name"] ∧
        piece = s) ∨
      (∃ tok v,
        (tok, v) ∈ personalizations 739000 emptyPCustomer emptyPVehicle ∧
        piece = v)) ∧
    (personalizations 739000 emptyPCustomer emptyPVehicle).lookup
      (phToken "customer_name") = some "Valued Customer" :=
  ⟨(c4_personalization_totality 739000 emptyPCustomer emptyPVehicle
      emptyGSVehicle [TmplTok.lit "Dear ", TmplTok.ph "customer_name"]).1
      (by intro n hn
          simp only [List.mem_cons] at hn
          rcases hn with h | h
          · cases h
          · rcases h with h | h
            · obtain rfl : n = "customer_name" := by injection h
              decide
            · cases h),
   (c4_personalization_totality 739000 emptyPCustomer emptyPVehicle
      emptyGSVehicle []).2.1 rfl⟩
